import Mathlib

/-!
Verification of the Jupyter-provisioning lifecycle controller in
`src/serverActions/manage.py` (functions `make_api_request`, `create_app`,
`create_volume`, `create_machine`, `provision_jupyter`, `get_machines`,
`terminate_jupyter`, `start_jupyter`, `delete_jupyter` and the batch loop of
`main`).

The remote control plane is modelled as an oracle `Remote σ` mapping a state
and an API call to a raw HTTP outcome and a next state.  Every embedded
function threads an effect record `Eff σ` that accumulates the issued API
calls, the console output (`pretty_print` calls, represented structurally by
the `Msg` inductive), and the per-student access record store (the
`.fly-configs/<student>/access.json` files).  Process termination via
`sys.exit` and uncaught Python exceptions are modelled by the `Outcome` type.
Randomness drawn by `secrets.token_urlsafe()` is passed in explicitly as the
list of random bytes the token is derived from.
-/

namespace Manage

/-- JSON values, the payloads `manage.py` builds with Python dict/list
literals and exchanges with the control plane. -/
inductive Json : Type
  | null : Json
  | bool : Bool → Json
  | num : Int → Json
  | str : String → Json
  | arr : List Json → Json
  | obj : List (String × Json) → Json

/-- Mirrors the `HTTPMethod` `str`-enum of `manage.py`. -/
inductive HTTPMethod : Type
  | GET | POST | PUT | DELETE
deriving DecidableEq, BEq

/-- One request issued through `make_api_request`: the method, the path
appended to `https://{FLY_API_HOST}`, and the optional JSON body. -/
structure ApiCall : Type where
  method : HTTPMethod
  path : String
  data : Option Json

/-- The body of an HTTP response as far as `json.loads` is concerned:
either a raw string that parses to the JSON value `j`, or a raw string
that `json.loads` rejects. -/
inductive RespBody : Type
  | jsonBody (raw : String) (j : Json)
  | textBody (raw : String)

/-- The raw text of a response body (`response.read().decode("utf-8")`). -/
def RespBody.raw : RespBody → String
  | .jsonBody r _ => r
  | .textBody r => r

/-- What `urllib.request.urlopen` does for one request: return a response
(`ok`), raise `urllib.error.HTTPError` carrying a status and an error body,
or raise some other exception (DNS failure, refused connection, timeout)
with message `msg`. -/
inductive HttpOutcome : Type
  | ok (code : Nat) (body : RespBody)
  | httpError (code : Nat) (body : RespBody)
  | exn (msg : String)

/-- The `"error"` payload of a result dict: parsed JSON when the error body
was parseable, otherwise the raw text. -/
inductive ErrPayload : Type
  | jsonErr (j : Json)
  | textErr (s : String)

/-- The dict returned by `make_api_request`: either
`{"status": ..., "data": ...}` or `{"status": ..., "error": ...}`. -/
inductive ApiResult : Type
  | success (status : Nat) (data : Option Json)
  | failure (status : Nat) (error : ErrPayload)

/-- The `"status"` entry of a result dict. -/
def ApiResult.status : ApiResult → Nat
  | .success s _ => s
  | .failure s _ => s

/-- `result.get("error", ...)`: the error payload when present. -/
def ApiResult.errField : ApiResult → Option ErrPayload
  | .success _ _ => none
  | .failure _ p => some p

/-- How a call to one of the Python functions ends: a returned value, process
termination through `sys.exit(code)`, or an uncaught Python exception. -/
inductive Outcome (α : Type) : Type
  | ok (a : α)
  | exit (code : Nat)
  | crash (msg : String)

/-- The remote control plane: a stateful oracle answering API calls. -/
structure Remote (σ : Type) : Type where
  handle : σ → ApiCall → HttpOutcome × σ

/-- A stateless remote described by a pure response function. -/
def pureRemote (f : ApiCall → HttpOutcome) : Remote Unit :=
  { handle := fun _ c => (f c, ()) }

/-- Every `pretty_print` call in the embedded functions, one constructor per
call site (colors omitted; the payload parameters are the interpolated
values of the corresponding f-string). -/
inductive Msg : Type
  | tokenNotSet1 : Msg
  | tokenNotSet2 : Msg
  | failedCreateApp (err : Option ErrPayload) : Msg
  | failedCreateVolume (err : Option ErrPayload) : Msg
  | failedCreateMachine (err : Option ErrPayload) : Msg
  | alreadyExists (student_id : String) : Msg
  | accessURL (url : String) : Msg
  | creatingNew (student_id : String) : Msg
  | deployed (student_id : String) : Msg
  | noRunningMachines (student_id : String) : Msg
  | failedStopMachine (machine_id student_id : String) : Msg
  | stoppedMachine (machine_id student_id : String) : Msg
  | noInstanceFound (student_id : String) : Msg
  | failedStartMachine (machine_id student_id : String) : Msg
  | startedMachine (machine_id student_id : String) : Msg
  | recreatedMachine (student_id : String) : Msg
  | createdNewMachine (student_id : String) : Msg
  | operationCanceled : Msg
  | failedDelete (student_id : String) (err : Option ErrPayload) : Msg
  | deletedInstance (student_id : String) : Msg
  | provisioningFor (student_id : String) : Msg
  | invalidLineFormat (line : String) : Msg

/-- The module-level environment-derived configuration constants of
`manage.py` (`FLY_ORGANIZATION`, `BASE_DOMAIN`, `JUPYTER_IMAGE`,
`VOLUME_SIZE`, `FLY_API_TOKEN`, `FLY_API_HOST`, `FLY_APP_PREFIX`). -/
structure Config : Type where
  flyOrganization : String
  baseDomain : String
  jupyterImage : String
  volumeSize : String
  flyApiToken : String
  flyApiHost : String
  flyAppPref : String

/-- The access-record store: the `.fly-configs/<student_id>/access.json`
files, keyed by student id, holding the stored JSON record.  A write
prepends, so a later write for the same student shadows the earlier one,
matching the file overwrite. -/
def Store : Type := List (String × Json)

/-- Read a student's `access.json` if the file exists. -/
def storeLookup (student_id : String) (st : Store) : Option Json :=
  List.lookup student_id st

/-- Overwrite a student's `access.json` with record `j`. -/
def storeWrite (student_id : String) (j : Json) (st : Store) : Store :=
  (student_id, j) :: st

/-- The effect state threaded through the embedded functions: the remote
oracle's state, the store, the list of API calls issued so far, and the
console output so far. -/
structure Eff (σ : Type) : Type where
  rs : σ
  store : Store
  calls : List ApiCall
  out : List Msg

/-- Sequencing of effectful steps: `sys.exit` and uncaught exceptions
propagate, a returned value feeds the continuation. -/
def bindO {σ α β : Type} (x : Outcome α × Eff σ) (f : α → Eff σ → Outcome β × Eff σ) :
    Outcome β × Eff σ :=
  match x with
  | (Outcome.ok a, e) => f a e
  | (Outcome.exit c, e) => (Outcome.exit c, e)
  | (Outcome.crash m, e) => (Outcome.crash m, e)

/-- Stand-in for `str(e)` of the `json.JSONDecodeError` raised when a
successful 200/201 response body is not valid JSON; no claim inspects this
text, only that the resulting status is the 500 sentinel. -/
def jsonDecodeErrStr (raw : String) : String :=
  "JSONDecodeError: " ++ raw

/-- `machine["id"]` / `machine["state"]`-style subscription: `KeyError` on a
missing key, `TypeError` on a non-dict. -/
def pyGetItem (j : Json) (k : String) : Outcome Json :=
  match j with
  | Json.obj kvs =>
    match List.lookup k kvs with
    | some v => Outcome.ok v
    | none => Outcome.crash "KeyError"
  | _ => Outcome.crash "TypeError"

/-- `d.get(k, default)` on a parsed JSON dict; `AttributeError` when the
value is not a dict. -/
def pyDictGet (j : Json) (k : String) (d : Json) : Outcome Json :=
  match j with
  | Json.obj kvs => Outcome.ok ((List.lookup k kvs).getD d)
  | _ => Outcome.crash "AttributeError"

/-- Python truthiness of a parsed JSON value (`if not machines: ...`). -/
def Json.truthy : Json → Bool
  | Json.null => false
  | Json.bool b => b
  | Json.num n => decide (n ≠ 0)
  | Json.str s => decide (s ≠ "")
  | Json.arr xs => !xs.isEmpty
  | Json.obj kvs => !kvs.isEmpty

/-- `j != "some string"` is `False` exactly when `j` is that string. -/
def jsonEqStr (j : Json) (s : String) : Bool :=
  match j with
  | Json.str t => t == s
  | _ => false

/-- `str(...)` as applied inside f-strings to values read out of parsed
JSON.  Machine ids and tokens are strings, for which this is exact;
composite values (which no code path of the claims renders) are
abbreviated rather than printed in Python `repr` form. -/
def pyStrOfJson : Json → String
  | Json.str s => s
  | Json.num n => toString n
  | Json.bool true => "True"
  | Json.bool false => "False"
  | Json.null => "None"
  | Json.arr _ => "<list>"
  | Json.obj _ => "<dict>"

/-- Digit accumulator for `pyInt`: `none` until a digit has been seen,
`none` forever after a non-digit. -/
def pyIntAux : List Char → Option Nat → Option Nat
  | [], acc => acc
  | c :: rest, acc =>
    if '0' ≤ c ∧ c ≤ '9' then
      pyIntAux rest (some ((acc.getD 0) * 10 + (c.toNat - 48)))
    else none

/-- `int(s)` for the `VOLUME_SIZE` string (raises `ValueError` on `none`):
an optional sign followed by at least one decimal digit. -/
def pyInt (s : String) : Option Int :=
  match s.data with
  | '-' :: rest => (pyIntAux rest none).map (fun n => -(n : Int))
  | '+' :: rest => (pyIntAux rest none).map (fun n => (n : Int))
  | cs => (pyIntAux cs none).map (fun n => (n : Int))

/-- ASCII whitespace as recognised by Python's `str.strip()`. -/
def pyIsSpace (c : Char) : Bool :=
  c == ' ' || c == '\t' || c == '\n' || c == '\r' || c == '\x0b' || c == '\x0c'

/-- Python `line.strip()`: drop leading and trailing whitespace. -/
def pyStrip (s : String) : String :=
  String.mk (((s.data.dropWhile pyIsSpace).reverse.dropWhile pyIsSpace).reverse)

/-- Helper for `pySplit`: accumulate the current field (reversed) while
scanning for the separator. -/
def pySplitAux (sep : Char) : List Char → List Char → List String
  | [], acc => [String.mk acc.reverse]
  | c :: rest, acc =>
    if c = sep then String.mk acc.reverse :: pySplitAux sep rest []
    else pySplitAux sep rest (c :: acc)

/-- Python `s.split(sep)` for a one-character separator: `"".split(",")`
is `[""]` and empty fields are kept. -/
def pySplit (s : String) (sep : Char) : List String :=
  pySplitAux sep s.data []

/-- Python `c.lower()` for one ASCII character. -/
def pyLowerChar (c : Char) : Char :=
  if 'A' ≤ c ∧ c ≤ 'Z' then Char.ofNat (c.toNat + 32) else c

/-- Python `s.lower()` (ASCII range, which covers the `y`/`Y` answers the
confirmation gate distinguishes). -/
def pyLower (s : String) : String :=
  String.mk (s.data.map pyLowerChar)

/-- Python `line.startswith("#")`. -/
def startsHash (s : String) : Bool :=
  match s.data with
  | '#' :: _ => true
  | _ => false

/-! ### `secrets.token_urlsafe()`

`secrets.token_urlsafe()` with no argument draws `DEFAULT_ENTROPY = 32`
random bytes and returns their padding-free URL-safe base64 encoding.  The
random bytes are made explicit as the `bytes` argument. -/

/-- The URL-safe base64 alphabet. -/
def b64urlAlphabet : List Char :=
  "ABCDEFGHIJKLMNOPQRSTUVWXYZabcdefghijklmnopqrstuvwxyz0123456789-_".toList

/-- The `n`-th character of the URL-safe base64 alphabet. -/
def b64Char (n : Nat) : Char :=
  b64urlAlphabet.getD n 'A'

/-- Padding-free URL-safe base64 of a byte list, 6 bits per character. -/
def b64urlEncode : List Nat → List Char
  | [] => []
  | [b1] => [b64Char (b1 / 4), b64Char (b1 % 4 * 16)]
  | [b1, b2] =>
      [b64Char (b1 / 4), b64Char (b1 % 4 * 16 + b2 / 16), b64Char (b2 % 16 * 4)]
  | b1 :: b2 :: b3 :: rest =>
      b64Char (b1 / 4) :: b64Char (b1 % 4 * 16 + b2 / 16) ::
        b64Char (b2 % 16 * 4 + b3 / 64) :: b64Char (b3 % 64) :: b64urlEncode rest

/-- `secrets.token_urlsafe()` applied to the drawn random bytes. -/
def token_urlsafe (bytes : List Nat) : String :=
  String.mk (b64urlEncode bytes)

/-- URL-safe characters: letters, digits, `-`, `_`. -/
def isUrlSafeChar (c : Char) : Bool :=
  c.isAlphanum || c == '-' || c == '_'

section Client

variable {σ : Type}

/-- `make_api_request` (manage.py lines 70–123): issue one request and
normalise the response into a `{"status", "data"|"error"}` result.  An
unset `FLY_API_TOKEN` prints two errors and exits; an HTTP error status
raised by `urlopen` is caught and tagged with its code and best-effort
parsed body; any other exception (including a `json.loads` failure on a
success body) yields status 500 with the exception message. -/
def make_api_request (cfg : Config) (R : Remote σ) (m : HTTPMethod) (p : String)
    (d : Option Json) (e : Eff σ) : Outcome ApiResult × Eff σ :=
  if cfg.flyApiToken = "" then
    (Outcome.exit 1, { e with out := e.out ++ [Msg.tokenNotSet1, Msg.tokenNotSet2] })
  else
    match R.handle e.rs (ApiCall.mk m p d) with
    | (o, s') =>
      let e' : Eff σ := { e with rs := s', calls := e.calls ++ [ApiCall.mk m p d] }
      match o with
      | HttpOutcome.ok code body =>
        if code = 200 ∨ code = 201 ∨ code = 204 then
          if code = 204 then
            (Outcome.ok (ApiResult.success 204 none), e')
          else
            match body with
            | RespBody.jsonBody _ j => (Outcome.ok (ApiResult.success code (some j)), e')
            | RespBody.textBody raw =>
              (Outcome.ok (ApiResult.failure 500 (ErrPayload.textErr (jsonDecodeErrStr raw))), e')
        else
          (Outcome.ok (ApiResult.failure code (ErrPayload.textErr body.raw)), e')
      | HttpOutcome.httpError code body =>
        match body with
        | RespBody.jsonBody _ j => (Outcome.ok (ApiResult.failure code (ErrPayload.jsonErr j)), e')
        | RespBody.textBody raw => (Outcome.ok (ApiResult.failure code (ErrPayload.textErr raw)), e')
      | HttpOutcome.exn msg =>
        (Outcome.ok (ApiResult.failure 500 (ErrPayload.textErr msg)), e')

end Client

/-- The result dict `make_api_request` produces for a given raw HTTP
outcome (derived characterisation, proved equal below). -/
def respResult : HttpOutcome → ApiResult
  | HttpOutcome.ok code body =>
    if code = 200 ∨ code = 201 ∨ code = 204 then
      if code = 204 then ApiResult.success 204 none
      else
        match body with
        | RespBody.jsonBody _ j => ApiResult.success code (some j)
        | RespBody.textBody raw =>
          ApiResult.failure 500 (ErrPayload.textErr (jsonDecodeErrStr raw))
    else ApiResult.failure code (ErrPayload.textErr body.raw)
  | HttpOutcome.httpError code body =>
    match body with
    | RespBody.jsonBody _ j => ApiResult.failure code (ErrPayload.jsonErr j)
    | RespBody.textBody raw => ApiResult.failure code (ErrPayload.textErr raw)
  | HttpOutcome.exn msg => ApiResult.failure 500 (ErrPayload.textErr msg)

/-- The `"status"` entry of the result for a given raw HTTP outcome. -/
def respStatus (o : HttpOutcome) : Nat :=
  (respResult o).status

/-- With the API token configured, `make_api_request` records exactly the
one call it issues, advances the remote state, and returns the normalised
result of the raw outcome. -/
theorem make_api_request_eq {σ : Type} (cfg : Config) (R : Remote σ) (m : HTTPMethod)
    (p : String) (d : Option Json) (e : Eff σ) (htok : cfg.flyApiToken ≠ "") :
    make_api_request cfg R m p d e =
      (Outcome.ok (respResult (R.handle e.rs (ApiCall.mk m p d)).1),
       { e with rs := (R.handle e.rs (ApiCall.mk m p d)).2,
                calls := e.calls ++ [ApiCall.mk m p d] }) := by
  unfold make_api_request
  rw [if_neg htok]
  rcases h : R.handle e.rs (ApiCall.mk m p d) with ⟨o, s'⟩
  cases o with
  | ok code body =>
    by_cases h2 : code = 200 ∨ code = 201 ∨ code = 204
    · by_cases h3 : code = 204
      · simp [respResult, h2, h3]
      · cases body <;> simp [respResult, h2, h3] <;> split <;> rfl
    · simp [respResult, h2]
  | httpError code body => cases body <;> simp [respResult]
  | exn msg => simp [respResult]

/-! ### Request builders

Named forms of the calls the lifecycle functions issue, used both by the
function bodies and by the theorem statements. -/

/-- `GET /v1/apps/{app_name}` (the existence check). -/
def appGetCall (app_name : String) : ApiCall :=
  ApiCall.mk HTTPMethod.GET ("/v1/apps/" ++ app_name) none

/-- The body of the app-create request (manage.py line 128). -/
def createAppData (cfg : Config) (app_name : String) : Json :=
  Json.obj [("name", Json.str app_name), ("org_slug", Json.str cfg.flyOrganization)]

/-- `POST /v1/apps` with the app-create body. -/
def createAppCall (cfg : Config) (app_name : String) : ApiCall :=
  ApiCall.mk HTTPMethod.POST "/v1/apps" (some (createAppData cfg app_name))

/-- The body of the volume-create request (manage.py lines 144–149). -/
def createVolumeData (volume_name : String) (size_gb : Int) : Json :=
  Json.obj [("name", Json.str volume_name), ("size_gb", Json.num size_gb),
            ("region", Json.str "iad"), ("encrypted", Json.bool true)]

/-- `POST /v1/apps/{app_name}/volumes` with the volume-create body. -/
def createVolumeCall (app_name volume_name : String) (size_gb : Int) : ApiCall :=
  ApiCall.mk HTTPMethod.POST ("/v1/apps/" ++ app_name ++ "/volumes")
    (some (createVolumeData volume_name size_gb))

/-- The machine-create body (manage.py lines 166–192): image, env with the
Jupyter token and student id, the HTTP service with concurrency limits, and
the `user_data` volume mount. -/
def machineCreateData (cfg : Config) (jupyter_token : Json) (student_id : String) : Json :=
  Json.obj
    [("name", Json.str (cfg.flyAppPref ++ "instance")),
     ("region", Json.str "iad"),
     ("config", Json.obj
       [("image", Json.str cfg.jupyterImage),
        ("env", Json.obj
          [("JUPYTER_TOKEN", jupyter_token),
           ("STUDENT_ID", Json.str student_id)]),
        ("services", Json.arr
          [Json.obj
            [("ports", Json.arr
               [Json.obj [("port", Json.num 80), ("handlers", Json.arr [Json.str "http"])],
                Json.obj [("port", Json.num 443),
                          ("handlers", Json.arr [Json.str "tls", Json.str "http"])]]),
             ("protocol", Json.str "tcp"),
             ("internal_port", Json.num 8888),
             ("concurrency", Json.obj
               [("type", Json.str "connections"),
                ("hard_limit", Json.num 25),
                ("soft_limit", Json.num 20)])]]),
        ("mounts", Json.arr
          [Json.obj [("volume", Json.str "user_data"),
                     ("path", Json.str "/home/jovyan/work")]])])]

/-- `POST /v1/apps/{app_name}/machines` with the machine-create body. -/
def createMachineCall (cfg : Config) (app_name : String) (jupyter_token : Json)
    (student_id : String) : ApiCall :=
  ApiCall.mk HTTPMethod.POST ("/v1/apps/" ++ app_name ++ "/machines")
    (some (machineCreateData cfg jupyter_token student_id))

/-- `GET /v1/apps/{app_name}/machines`. -/
def machinesGetCall (app_name : String) : ApiCall :=
  ApiCall.mk HTTPMethod.GET ("/v1/apps/" ++ app_name ++ "/machines") none

/-- `POST /v1/apps/{app_name}/machines/{machine_id}/stop`. -/
def stopCallOf (app_name machine_id : String) : ApiCall :=
  ApiCall.mk HTTPMethod.POST
    ("/v1/apps/" ++ app_name ++ "/machines/" ++ machine_id ++ "/stop") none

/-- `POST /v1/apps/{app_name}/machines/{machine_id}/start`. -/
def startCallOf (app_name machine_id : String) : ApiCall :=
  ApiCall.mk HTTPMethod.POST
    ("/v1/apps/" ++ app_name ++ "/machines/" ++ machine_id ++ "/start") none

/-- `DELETE /v1/apps/{app_name}`. -/
def deleteAppCall (app_name : String) : ApiCall :=
  ApiCall.mk HTTPMethod.DELETE ("/v1/apps/" ++ app_name) none

/-! ### Lifecycle functions -/

section Lifecycle

variable {σ : Type}

/-- `create_app` (manage.py lines 126–139): POST the app-create request; on
a status outside {200, 201} print the failure and `sys.exit(1)`. -/
def create_app (cfg : Config) (R : Remote σ) (app_name : String) (e : Eff σ) :
    Outcome Unit × Eff σ :=
  bindO (make_api_request cfg R HTTPMethod.POST "/v1/apps"
          (some (createAppData cfg app_name)) e)
    (fun result e1 =>
      if result.status = 200 ∨ result.status = 201 then (Outcome.ok (), e1)
      else (Outcome.exit 1,
            { e1 with out := e1.out ++ [Msg.failedCreateApp result.errField] }))

/-- `create_volume` (manage.py lines 142–161): build the volume body
(`int(size_gb)` raises `ValueError` on a non-numeric size), POST it, exit 1
on failure; the `time.sleep(2)` settle delay has no observable effect here. -/
def create_volume (cfg : Config) (R : Remote σ) (app_name volume_name size_gb : String)
    (e : Eff σ) : Outcome Unit × Eff σ :=
  match pyInt size_gb with
  | none => (Outcome.crash "ValueError", e)
  | some n =>
    bindO (make_api_request cfg R HTTPMethod.POST ("/v1/apps/" ++ app_name ++ "/volumes")
            (some (createVolumeData volume_name n)) e)
      (fun result e1 =>
        if result.status = 200 ∨ result.status = 201 then (Outcome.ok (), e1)
        else (Outcome.exit 1,
              { e1 with out := e1.out ++ [Msg.failedCreateVolume result.errField] }))

/-- `create_machine` (manage.py lines 164–203): POST the machine-create
request embedding the token and student id in the environment; exit 1 on
failure. -/
def create_machine (cfg : Config) (R : Remote σ) (app_name : String)
    (jupyter_token : Json) (student_id : String) (e : Eff σ) : Outcome Unit × Eff σ :=
  bindO (make_api_request cfg R HTTPMethod.POST ("/v1/apps/" ++ app_name ++ "/machines")
          (some (machineCreateData cfg jupyter_token student_id)) e)
    (fun result e1 =>
      if result.status = 200 ∨ result.status = 201 then (Outcome.ok (), e1)
      else (Outcome.exit 1,
            { e1 with out := e1.out ++ [Msg.failedCreateMachine result.errField] }))

/-- The access URL printed and stored by `provision_jupyter`:
`https://{app_name}.{BASE_DOMAIN}/lab?token={jupyter_token}`. -/
def accessUrl (cfg : Config) (app_name jupyter_token : String) : String :=
  "https://" ++ app_name ++ "." ++ cfg.baseDomain ++ "/lab?token=" ++ jupyter_token

/-- The `access.json` record written on first successful provisioning
(manage.py lines 234–239). -/
def accessInfoJson (cfg : Config) (student_id app_name jupyter_token : String) : Json :=
  Json.obj [("student_id", Json.str student_id),
            ("app_name", Json.str app_name),
            ("url", Json.str (accessUrl cfg app_name jupyter_token)),
            ("token", Json.str jupyter_token)]

/-- `provision_jupyter` (manage.py lines 206–242): draw a fresh token, check
whether the app already exists (status 200 → report "already exists" plus an
access URL built from the *fresh* token and return), otherwise create the
app, the volume and the machine in order and finally write `access.json`.
`rnd` is the entropy drawn by `secrets.token_urlsafe()` at line 208. -/
def provision_jupyter (cfg : Config) (R : Remote σ) (student_id app_name : String)
    (rnd : List Nat) (e : Eff σ) : Outcome Unit × Eff σ :=
  let jupyter_token := token_urlsafe rnd
  bindO (make_api_request cfg R HTTPMethod.GET ("/v1/apps/" ++ app_name) none e)
    (fun result e1 =>
      if result.status = 200 then
        (Outcome.ok (),
         { e1 with out := e1.out ++ [Msg.alreadyExists student_id,
                                     Msg.accessURL (accessUrl cfg app_name jupyter_token)] })
      else
        let e2 := { e1 with out := e1.out ++ [Msg.creatingNew student_id] }
        bindO (create_app cfg R app_name e2) (fun _ e3 =>
          bindO (create_volume cfg R app_name "user_data" cfg.volumeSize e3) (fun _ e4 =>
            bindO (create_machine cfg R app_name (Json.str jupyter_token) student_id e4)
              (fun _ e5 =>
                let e6 := { e5 with
                  out := e5.out ++ [Msg.deployed student_id,
                                    Msg.accessURL (accessUrl cfg app_name jupyter_token)] }
                let info := accessInfoJson cfg student_id app_name jupyter_token
                (Outcome.ok (), { e6 with store := storeWrite student_id info e6.store })))))

/-- Two consecutive invocations of `provision_jupyter` for the same student
(the second runs only if the first did not terminate the process). -/
def provisionTwice (cfg : Config) (R : Remote σ) (student_id app_name : String)
    (rnd1 rnd2 : List Nat) (e : Eff σ) : Outcome Unit × Eff σ :=
  bindO (provision_jupyter cfg R student_id app_name rnd1 e) (fun _ e1 =>
    provision_jupyter cfg R student_id app_name rnd2 e1)

/-- `get_machines` (manage.py lines 245–252): list the machines of an app;
a non-200 status yields the empty list, otherwise the parsed `"data"`
payload (a `KeyError` if a status-200 result carries no data key). -/
def get_machines (cfg : Config) (R : Remote σ) (app_name : String) (e : Eff σ) :
    Outcome Json × Eff σ :=
  bindO (make_api_request cfg R HTTPMethod.GET
          ("/v1/apps/" ++ app_name ++ "/machines") none e)
    (fun result e1 =>
      if result.status ≠ 200 then (Outcome.ok (Json.arr []), e1)
      else
        match result with
        | ApiResult.success _ (some d) => (Outcome.ok d, e1)
        | ApiResult.success _ none => (Outcome.ok Json.null, e1)
        | ApiResult.failure _ _ => (Outcome.crash "KeyError", e1))

/-- The per-machine loop of `terminate_jupyter` (manage.py lines 263–274):
POST a stop for *every* machine in the list, print a failure message when
the status is outside {200, 204}, and print the success message
unconditionally. -/
def stopMachinesLoop (cfg : Config) (R : Remote σ) (student_id app_name : String) :
    List Json → Eff σ → Outcome Unit × Eff σ
  | [], e => (Outcome.ok (), e)
  | machine :: rest, e =>
    match pyGetItem machine "id" with
    | Outcome.ok mid =>
      let midS := pyStrOfJson mid
      match make_api_request cfg R HTTPMethod.POST
              ("/v1/apps/" ++ app_name ++ "/machines/" ++ midS ++ "/stop") none e with
      | (Outcome.ok result, e1) =>
        let e2 := if result.status = 200 ∨ result.status = 204 then e1
                  else { e1 with out := e1.out ++ [Msg.failedStopMachine midS student_id] }
        stopMachinesLoop cfg R student_id app_name rest
          { e2 with out := e2.out ++ [Msg.stoppedMachine midS student_id] }
      | (Outcome.exit c, e1) => (Outcome.exit c, e1)
      | (Outcome.crash msg, e1) => (Outcome.crash msg, e1)
    | Outcome.exit c => (Outcome.exit c, e)
    | Outcome.crash msg => (Outcome.crash msg, e)

/-- `terminate_jupyter` (manage.py lines 255–274): list the machines; an
empty (falsy) result is reported as "no running machines found" and the
function returns; otherwise every machine is stopped via the loop. -/
def terminate_jupyter (cfg : Config) (R : Remote σ) (student_id app_name : String)
    (e : Eff σ) : Outcome Unit × Eff σ :=
  bindO (get_machines cfg R app_name e) (fun machines e1 =>
    if Json.truthy machines = false then
      (Outcome.ok (), { e1 with out := e1.out ++ [Msg.noRunningMachines student_id] })
    else
      match machines with
      | Json.arr xs => stopMachinesLoop cfg R student_id app_name xs e1
      | _ => (Outcome.crash "TypeError", e1))

/-- The per-machine loop of `start_jupyter` (manage.py lines 288–303): for
each machine whose `"state"` is not `"started"`, POST a start, print a
failure message when the status is outside {200, 204}, and print the
success message unconditionally; machines already started are skipped
silently. -/
def startMachinesLoop (cfg : Config) (R : Remote σ) (student_id app_name : String) :
    List Json → Eff σ → Outcome Unit × Eff σ
  | [], e => (Outcome.ok (), e)
  | machine :: rest, e =>
    match pyGetItem machine "state" with
    | Outcome.ok st =>
      if jsonEqStr st "started" then
        startMachinesLoop cfg R student_id app_name rest e
      else
        match pyGetItem machine "id" with
        | Outcome.ok mid =>
          let midS := pyStrOfJson mid
          match make_api_request cfg R HTTPMethod.POST
                  ("/v1/apps/" ++ app_name ++ "/machines/" ++ midS ++ "/start") none e with
          | (Outcome.ok result, e1) =>
            let e2 := if result.status = 200 ∨ result.status = 204 then e1
                      else { e1 with out := e1.out ++ [Msg.failedStartMachine midS student_id] }
            startMachinesLoop cfg R student_id app_name rest
              { e2 with out := e2.out ++ [Msg.startedMachine midS student_id] }
          | (Outcome.exit c, e1) => (Outcome.exit c, e1)
          | (Outcome.crash msg, e1) => (Outcome.crash msg, e1)
        | Outcome.exit c => (Outcome.exit c, e)
        | Outcome.crash msg => (Outcome.crash msg, e)
    | Outcome.exit c => (Outcome.exit c, e)
    | Outcome.crash msg => (Outcome.crash msg, e)

/-- `start_jupyter` (manage.py lines 277–318): a non-200 app GET reports "no
instance found"; with machines present, each non-started machine is started;
with zero machines, a machine is recreated from the stored `access.json`
token when the record exists (`access_info.get("token", fresh)`), else from
a freshly minted token.  `freshTok` is the token `secrets.token_urlsafe()`
would yield on the single draw taken in the zero-machines branch. -/
def start_jupyter (cfg : Config) (R : Remote σ) (student_id app_name : String)
    (freshTok : String) (e : Eff σ) : Outcome Unit × Eff σ :=
  bindO (make_api_request cfg R HTTPMethod.GET ("/v1/apps/" ++ app_name) none e)
    (fun app_result e1 =>
      if app_result.status ≠ 200 then
        (Outcome.ok (), { e1 with out := e1.out ++ [Msg.noInstanceFound student_id] })
      else
        bindO (get_machines cfg R app_name e1) (fun machines e2 =>
          if Json.truthy machines then
            match machines with
            | Json.arr xs => startMachinesLoop cfg R student_id app_name xs e2
            | _ => (Outcome.crash "TypeError", e2)
          else
            match storeLookup student_id e2.store with
            | some access_info =>
              match pyDictGet access_info "token" (Json.str freshTok) with
              | Outcome.ok jupyter_token =>
                bindO (create_machine cfg R app_name jupyter_token student_id e2)
                  (fun _ e3 =>
                    (Outcome.ok (),
                     { e3 with out := e3.out ++ [Msg.recreatedMachine student_id] }))
              | Outcome.exit c => (Outcome.exit c, e2)
              | Outcome.crash msg => (Outcome.crash msg, e2)
            | none =>
              bindO (create_machine cfg R app_name (Json.str freshTok) student_id e2)
                (fun _ e3 =>
                  (Outcome.ok (),
                   { e3 with out := e3.out ++ [Msg.createdNewMachine student_id] }))))

/-- `delete_jupyter` (manage.py lines 321–338): the interactive confirmation
is the caller-supplied `confirm` string; any answer whose lowercase form is
not `"y"` cancels with no API call.  After the DELETE, a failure message is
printed for statuses outside {200, 204} and the "successfully deleted"
message is printed unconditionally. -/
def delete_jupyter (cfg : Config) (R : Remote σ) (student_id app_name confirm : String)
    (e : Eff σ) : Outcome Unit × Eff σ :=
  if pyLower confirm ≠ "y" then
    (Outcome.ok (), { e with out := e.out ++ [Msg.operationCanceled] })
  else
    bindO (make_api_request cfg R HTTPMethod.DELETE ("/v1/apps/" ++ app_name) none e)
      (fun result e1 =>
        let e2 := if result.status = 200 ∨ result.status = 204 then e1
                  else { e1 with
                         out := e1.out ++ [Msg.failedDelete student_id result.errField] }
        (Outcome.ok (), { e2 with out := e2.out ++ [Msg.deletedInstance student_id] }))

/-- The batch branch of `main` (manage.py lines 431–444): for each file
line, skip blank and `#`-initial lines; report and skip lines with fewer
than two comma-separated fields; otherwise take the first field as the
student id and provision `FLY_APP_PREFIX + student_id` (the third field, the
resource limit, is parsed but unused by `provision_jupyter`).  `rnds`
supplies the entropy of the `secrets.token_urlsafe()` draw of each
provisioning call in order. -/
def batchRun (cfg : Config) (R : Remote σ) :
    List String → List (List Nat) → Eff σ → Outcome Unit × Eff σ
  | [], _, e => (Outcome.ok (), e)
  | line :: rest, rnds, e =>
    if pyStrip line ≠ "" ∧ startsHash line = false then
      let parts := pySplit (pyStrip line) ','
      if parts.length < 2 then
        batchRun cfg R rest rnds
          { e with out := e.out ++ [Msg.invalidLineFormat (pyStrip line)] }
      else
        let student_id := parts.headD ""
        let e1 := { e with out := e.out ++ [Msg.provisioningFor student_id] }
        match provision_jupyter cfg R student_id (cfg.flyAppPref ++ student_id)
                (rnds.headD []) e1 with
        | (Outcome.ok _, e2) => batchRun cfg R rest rnds.tail e2
        | (Outcome.exit c, e2) => (Outcome.exit c, e2)
        | (Outcome.crash msg, e2) => (Outcome.crash msg, e2)
    else
      batchRun cfg R rest rnds e

end Lifecycle

/-- The app-create calls in a trace: `POST /v1/apps`. -/
def isCreateAppCall (c : ApiCall) : Bool :=
  c.method == HTTPMethod.POST && c.path == "/v1/apps"

/-- How many app-create calls a trace contains. -/
def countCreateApp (calls : List ApiCall) : Nat :=
  calls.countP isCreateAppCall

/-- Does string `s` end with `t`? (computable form of a suffix check). -/
def strEndsWith (s t : String) : Bool :=
  List.isSuffixOf t.data s.data

/-- The machine-stop calls in a trace. -/
def isStopCall (c : ApiCall) : Bool :=
  c.method == HTTPMethod.POST && strEndsWith c.path "/stop"

/-- How many machine-stop calls a trace contains. -/
def countStop (calls : List ApiCall) : Nat :=
  calls.countP isStopCall

/-! ### Helper lemmas -/

/-- A volume-create path is never the app-create path. -/
theorem volumes_path_ne (app : String) :
    ("/v1/apps/" ++ app ++ "/volumes") ≠ "/v1/apps" := by
  intro h
  have h2 := congrArg String.length h
  rw [String.length_append, String.length_append] at h2
  have hl : ("/v1/apps/" : String).length = 9 := rfl
  have hr : ("/volumes" : String).length = 8 := rfl
  have ha : ("/v1/apps" : String).length = 8 := rfl
  omega

/-- A machine-create path is never the app-create path. -/
theorem machines_path_ne (app : String) :
    ("/v1/apps/" ++ app ++ "/machines") ≠ "/v1/apps" := by
  intro h
  have h2 := congrArg String.length h
  rw [String.length_append, String.length_append] at h2
  have hl : ("/v1/apps/" : String).length = 9 := rfl
  have hr : ("/machines" : String).length = 9 := rfl
  have ha : ("/v1/apps" : String).length = 8 := rfl
  omega

/-- Volume-create requests are not counted as app-create calls. -/
theorem isCreateAppCall_volume (app : String) (d : Option Json) :
    isCreateAppCall (ApiCall.mk HTTPMethod.POST ("/v1/apps/" ++ app ++ "/volumes") d) = false := by
  simp [isCreateAppCall, volumes_path_ne app]

/-- Machine-create requests are not counted as app-create calls. -/
theorem isCreateAppCall_machine (app : String) (d : Option Json) :
    isCreateAppCall (ApiCall.mk HTTPMethod.POST ("/v1/apps/" ++ app ++ "/machines") d) = false := by
  simp [isCreateAppCall, machines_path_ne app]

/-- The existence GET is not counted as an app-create call. -/
theorem isCreateAppCall_get (m : HTTPMethod) (p : String) (d : Option Json)
    (hm : m ≠ HTTPMethod.POST) :
    isCreateAppCall (ApiCall.mk m p d) = false := by
  cases m
  · rfl
  · exact absurd rfl hm
  · rfl
  · rfl

/-- App-create requests are counted as app-create calls. -/
theorem isCreateAppCall_app (d : Option Json) :
    isCreateAppCall (ApiCall.mk HTTPMethod.POST "/v1/apps" d) = true := rfl

/-- With no API token, `make_api_request` exits without issuing a call. -/
theorem make_api_request_exit {σ : Type} (cfg : Config) (R : Remote σ) (m : HTTPMethod)
    (p : String) (d : Option Json) (e : Eff σ) (htok : cfg.flyApiToken = "") :
    make_api_request cfg R m p d e =
      (Outcome.exit 1, { e with out := e.out ++ [Msg.tokenNotSet1, Msg.tokenNotSet2] }) := by
  unfold make_api_request
  rw [if_pos htok]

/-- `create_volume` never adds an app-create call to the trace. -/
theorem create_volume_count {σ : Type} (cfg : Config) (R : Remote σ)
    (app v s : String) (e : Eff σ) :
    countCreateApp (create_volume cfg R app v s e).2.calls = countCreateApp e.calls := by
  unfold create_volume
  split
  · rfl
  · by_cases htok : cfg.flyApiToken = ""
    · rw [make_api_request_exit cfg R _ _ _ _ htok]
      simp [bindO]
    · rw [make_api_request_eq cfg R _ _ _ _ htok]
      simp only [bindO]
      split <;>
        simp [countCreateApp, List.countP_append, List.countP_cons,
              isCreateAppCall_volume app]

/-- `create_machine` never adds an app-create call to the trace. -/
theorem create_machine_count {σ : Type} (cfg : Config) (R : Remote σ)
    (app : String) (t : Json) (sid : String) (e : Eff σ) :
    countCreateApp (create_machine cfg R app t sid e).2.calls = countCreateApp e.calls := by
  unfold create_machine
  by_cases htok : cfg.flyApiToken = ""
  · rw [make_api_request_exit cfg R _ _ _ _ htok]
    simp [bindO]
  · rw [make_api_request_eq cfg R _ _ _ _ htok]
    simp only [bindO]
    split <;>
      simp [countCreateApp, List.countP_append, List.countP_cons,
            isCreateAppCall_machine app]

/-- `create_app` adds at most one app-create call to the trace. -/
theorem create_app_count {σ : Type} (cfg : Config) (R : Remote σ)
    (app : String) (e : Eff σ) :
    countCreateApp (create_app cfg R app e).2.calls ≤ countCreateApp e.calls + 1 := by
  unfold create_app
  by_cases htok : cfg.flyApiToken = ""
  · rw [make_api_request_exit cfg R _ _ _ _ htok]
    exact Nat.le_succ _
  · rw [make_api_request_eq cfg R _ _ _ _ htok]
    simp only [bindO]
    split <;>
      simp [countCreateApp, List.countP_append, List.countP_cons,
            isCreateAppCall_app]

/-- With no API token, `provision_jupyter` exits at the existence check. -/
theorem provision_token_empty {σ : Type} (cfg : Config) (R : Remote σ)
    (sid app : String) (rnd : List Nat) (e : Eff σ) (htok : cfg.flyApiToken = "") :
    provision_jupyter cfg R sid app rnd e =
      (Outcome.exit 1, { e with out := e.out ++ [Msg.tokenNotSet1, Msg.tokenNotSet2] }) := by
  unfold provision_jupyter
  rw [make_api_request_exit cfg R _ _ _ _ htok]
  rfl

/-- When the existence GET reports status 200, `provision_jupyter` stops
after that single call: it reports "already exists" together with a URL
built from the freshly drawn token, adds no further API call, and leaves
the store untouched. -/
theorem provision_exists_run {σ : Type} (cfg : Config) (R : Remote σ)
    (sid app : String) (rnd : List Nat) (e : Eff σ)
    (htok : cfg.flyApiToken ≠ "")
    (h200 : respStatus (R.handle e.rs (appGetCall app)).1 = 200) :
    provision_jupyter cfg R sid app rnd e =
      (Outcome.ok (),
       { e with rs := (R.handle e.rs (appGetCall app)).2,
                calls := e.calls ++ [appGetCall app],
                out := e.out ++ [Msg.alreadyExists sid,
                                 Msg.accessURL (accessUrl cfg app (token_urlsafe rnd))] }) := by
  unfold provision_jupyter
  rw [make_api_request_eq cfg R _ _ _ _ htok]
  simp only [appGetCall, respStatus] at h200
  simp only [bindO]
  rw [if_pos h200]
  rfl

/-- Any single `provision_jupyter` run adds at most one app-create call. -/
theorem provision_count_le {σ : Type} (cfg : Config) (R : Remote σ)
    (sid app : String) (rnd : List Nat) (e : Eff σ) :
    countCreateApp (provision_jupyter cfg R sid app rnd e).2.calls ≤
      countCreateApp e.calls + 1 := by
  by_cases htok : cfg.flyApiToken = ""
  · rw [provision_token_empty cfg R sid app rnd e htok]
    exact Nat.le_succ _
  unfold provision_jupyter
  rw [make_api_request_eq cfg R _ _ _ _ htok]
  simp only [bindO]
  split
  · simp [countCreateApp, List.countP_append, List.countP_cons,
          isCreateAppCall_get HTTPMethod.GET _ none (by simp)]
  · rcases h3 : create_app cfg R app
        { e with rs := (R.handle e.rs (ApiCall.mk HTTPMethod.GET ("/v1/apps/" ++ app) none)).2,
                 calls := e.calls ++ [ApiCall.mk HTTPMethod.GET ("/v1/apps/" ++ app) none],
                 out := e.out ++ [Msg.creatingNew sid] } with ⟨o3, e3⟩
    have hc3 : countCreateApp e3.calls ≤ countCreateApp e.calls + 1 := by
      have := create_app_count cfg R app
        { e with rs := (R.handle e.rs (ApiCall.mk HTTPMethod.GET ("/v1/apps/" ++ app) none)).2,
                 calls := e.calls ++ [ApiCall.mk HTTPMethod.GET ("/v1/apps/" ++ app) none],
                 out := e.out ++ [Msg.creatingNew sid] }
      rw [h3] at this
      simpa [countCreateApp, List.countP_append, List.countP_cons,
             isCreateAppCall_get HTTPMethod.GET _ none (by simp)] using this
    cases o3 with
    | exit c => exact hc3
    | crash m => exact hc3
    | ok a =>
      dsimp only
      rcases h4 : create_volume cfg R app "user_data" cfg.volumeSize e3 with ⟨o4, e4⟩
      have hc4 : countCreateApp e4.calls = countCreateApp e3.calls := by
        have := create_volume_count cfg R app "user_data" cfg.volumeSize e3
        rw [h4] at this
        exact this
      cases o4 with
      | exit c => exact show countCreateApp e4.calls ≤ countCreateApp e.calls + 1 by omega
      | crash m => exact show countCreateApp e4.calls ≤ countCreateApp e.calls + 1 by omega
      | ok a =>
        dsimp only
        rcases h5 : create_machine cfg R app (Json.str (token_urlsafe rnd)) sid e4 with ⟨o5, e5⟩
        have hc5 : countCreateApp e5.calls = countCreateApp e4.calls := by
          have := create_machine_count cfg R app (Json.str (token_urlsafe rnd)) sid e4
          rw [h5] at this
          exact this
        cases o5 with
        | exit c => exact show countCreateApp e5.calls ≤ countCreateApp e.calls + 1 by omega
        | crash m => exact show countCreateApp e5.calls ≤ countCreateApp e.calls + 1 by omega
        | ok a => exact show countCreateApp e5.calls ≤ countCreateApp e.calls + 1 by omega

/-- Base64url encoding never shortens: at least one output character per
input byte (each 3-byte group yields 4 characters). -/
theorem b64urlEncode_length_ge : ∀ bs : List Nat, bs.length ≤ (b64urlEncode bs).length
  | [] => by simp [b64urlEncode]
  | [b1] => by simp [b64urlEncode]
  | [b1, b2] => by simp [b64urlEncode]
  | b1 :: b2 :: b3 :: rest => by
    have ih := b64urlEncode_length_ge rest
    simp only [b64urlEncode, List.length_cons]
    omega

/-- Every character of the URL-safe alphabet is URL-safe. -/
theorem alphabet_all_urlsafe : ∀ c ∈ b64urlAlphabet, isUrlSafeChar c = true := by decide

/-- Every alphabet lookup lands in the URL-safe character set. -/
theorem b64Char_urlsafe (n : Nat) : isUrlSafeChar (b64Char n) = true := by
  unfold b64Char
  rw [List.getD_eq_getD_get?]
  cases h : b64urlAlphabet.get? n with
  | none => decide
  | some c =>
    have hc : c ∈ b64urlAlphabet := List.get?_mem h
    simpa using alphabet_all_urlsafe c hc

/-- Every character produced by the encoder is URL-safe. -/
theorem b64urlEncode_all : ∀ bs : List Nat, ∀ c ∈ b64urlEncode bs, isUrlSafeChar c = true
  | [] => by simp [b64urlEncode]
  | [b1] => by
    intro c hc
    simp only [b64urlEncode, List.mem_cons, List.not_mem_nil, or_false] at hc
    rcases hc with h | h <;> (subst h; exact b64Char_urlsafe _)
  | [b1, b2] => by
    intro c hc
    simp only [b64urlEncode, List.mem_cons, List.not_mem_nil, or_false] at hc
    rcases hc with h | h | h <;> (subst h; exact b64Char_urlsafe _)
  | b1 :: b2 :: b3 :: rest => by
    intro c hc
    simp only [b64urlEncode, List.mem_cons] at hc
    rcases hc with h | h | h | h | h
    · subst h; exact b64Char_urlsafe _
    · subst h; exact b64Char_urlsafe _
    · subst h; exact b64Char_urlsafe _
    · subst h; exact b64Char_urlsafe _
    · exact b64urlEncode_all rest c h

/-- A token derived from `n` random bytes has at least `n` characters. -/
theorem token_urlsafe_length (bytes : List Nat) :
    bytes.length ≤ (token_urlsafe bytes).length := by
  unfold token_urlsafe
  simpa [String.length] using b64urlEncode_length_ge bytes

/-- Every character of a generated token is URL-safe. -/
theorem token_urlsafe_chars (bytes : List Nat) :
    ∀ c ∈ (token_urlsafe bytes).data, isUrlSafeChar c = true := by
  unfold token_urlsafe
  intro c hc
  exact b64urlEncode_all bytes c hc

/-- Full characterisation of one `create_app` run in terms of the raw
outcome of its POST. -/
theorem create_app_run {σ : Type} (cfg : Config) (R : Remote σ) (app : String) (e : Eff σ)
    (htok : cfg.flyApiToken ≠ "") (o : HttpOutcome) (s' : σ)
    (h : R.handle e.rs (createAppCall cfg app) = (o, s')) :
    create_app cfg R app e =
      if respStatus o = 200 ∨ respStatus o = 201 then
        (Outcome.ok (), { e with rs := s', calls := e.calls ++ [createAppCall cfg app] })
      else
        (Outcome.exit 1,
         { e with rs := s', calls := e.calls ++ [createAppCall cfg app],
                  out := e.out ++ [Msg.failedCreateApp (respResult o).errField] }) := by
  unfold create_app
  rw [make_api_request_eq cfg R _ _ _ _ htok]
  simp only [createAppCall] at h
  rw [h]
  dsimp only
  simp only [bindO, respStatus]
  split <;> rfl

/-- Full characterisation of one `create_volume` run. -/
theorem create_volume_run {σ : Type} (cfg : Config) (R : Remote σ) (app v s : String)
    (n : Int) (e : Eff σ) (htok : cfg.flyApiToken ≠ "") (hsz : pyInt s = some n)
    (o : HttpOutcome) (s' : σ)
    (h : R.handle e.rs (createVolumeCall app v n) = (o, s')) :
    create_volume cfg R app v s e =
      if respStatus o = 200 ∨ respStatus o = 201 then
        (Outcome.ok (), { e with rs := s', calls := e.calls ++ [createVolumeCall app v n] })
      else
        (Outcome.exit 1,
         { e with rs := s', calls := e.calls ++ [createVolumeCall app v n],
                  out := e.out ++ [Msg.failedCreateVolume (respResult o).errField] }) := by
  unfold create_volume
  rw [hsz]
  dsimp only
  rw [make_api_request_eq cfg R _ _ _ _ htok]
  simp only [createVolumeCall] at h
  rw [h]
  dsimp only
  simp only [bindO, respStatus]
  split <;> rfl

/-- Full characterisation of one `create_machine` run. -/
theorem create_machine_run {σ : Type} (cfg : Config) (R : Remote σ) (app : String)
    (t : Json) (sid : String) (e : Eff σ) (htok : cfg.flyApiToken ≠ "")
    (o : HttpOutcome) (s' : σ)
    (h : R.handle e.rs (createMachineCall cfg app t sid) = (o, s')) :
    create_machine cfg R app t sid e =
      if respStatus o = 200 ∨ respStatus o = 201 then
        (Outcome.ok (), { e with rs := s', calls := e.calls ++ [createMachineCall cfg app t sid] })
      else
        (Outcome.exit 1,
         { e with rs := s', calls := e.calls ++ [createMachineCall cfg app t sid],
                  out := e.out ++ [Msg.failedCreateMachine (respResult o).errField] }) := by
  unfold create_machine
  rw [make_api_request_eq cfg R _ _ _ _ htok]
  simp only [createMachineCall] at h
  rw [h]
  dsimp only
  simp only [bindO, respStatus]
  split <;> rfl

/-! ### Fixtures for witnesses and counterexamples -/

/-- A fully populated configuration. -/
def cfgW : Config := ⟨"org", "example.com", "img", "10", "tok", "api.machines.dev", "jupyter-"⟩

/-- A parseable empty-object response body. -/
def okJsonBody : RespBody := RespBody.jsonBody "{}" (Json.obj [])

/-- The initial effect state: no calls, no output, empty store. -/
def effW : Eff Unit := ⟨(), [], [], []⟩

/-- A remote on which every request succeeds with status 200 (in
particular, every app-existence GET reports the app as present). -/
def fExistsW : ApiCall → HttpOutcome := fun _ => HttpOutcome.ok 200 okJsonBody

/-- A remote on which GETs 404 (nothing exists yet) and every mutation
succeeds with status 201. -/
def fNewW : ApiCall → HttpOutcome := fun c =>
  if c.method == HTTPMethod.GET then HttpOutcome.httpError 404 (RespBody.textBody "nf")
  else HttpOutcome.ok 201 okJsonBody

/-! ### Claims -/

/-- Claim C1: when the application already exists (the existence GET
reports status 200), `provision_jupyter` short-circuits: it returns
normally after issuing only the single GET, reporting "already exists"
with an access URL, with the store unchanged and no create-Application,
create-Volume or create-Machine call issued; consequently two consecutive
provisionings of the same student issue at most one app-create call in
total, provided a completed first run leaves the app visible to the
existence GET (or made no create call itself). -/
theorem provision_idempotent_short_circuit :
    (∀ (σ : Type) (cfg : Config) (R : Remote σ) (sid app : String) (rnd : List Nat) (e : Eff σ),
      cfg.flyApiToken ≠ "" →
      respStatus (R.handle e.rs (appGetCall app)).1 = 200 →
      provision_jupyter cfg R sid app rnd e =
        (Outcome.ok (),
         { e with rs := (R.handle e.rs (appGetCall app)).2,
                  calls := e.calls ++ [appGetCall app],
                  out := e.out ++ [Msg.alreadyExists sid,
                                   Msg.accessURL (accessUrl cfg app (token_urlsafe rnd))] })) ∧
    (∀ (σ : Type) (cfg : Config) (R : Remote σ) (sid app : String) (rnd1 rnd2 : List Nat) (e : Eff σ),
      (∀ e1, provision_jupyter cfg R sid app rnd1 e = (Outcome.ok (), e1) →
        respStatus (R.handle e1.rs (appGetCall app)).1 = 200 ∨
          countCreateApp e1.calls = countCreateApp e.calls) →
      countCreateApp (provisionTwice cfg R sid app rnd1 rnd2 e).2.calls ≤
        countCreateApp e.calls + 1) := by
  constructor
  · intro σ cfg R sid app rnd e htok h200
    exact provision_exists_run cfg R sid app rnd e htok h200
  · intro σ cfg R sid app rnd1 rnd2 e hpersist
    rcases hrun : provision_jupyter cfg R sid app rnd1 e with ⟨o1, e1⟩
    have hle1 : countCreateApp e1.calls ≤ countCreateApp e.calls + 1 := by
      have := provision_count_le cfg R sid app rnd1 e
      rw [hrun] at this
      exact this
    unfold provisionTwice
    rw [hrun]
    cases o1 with
    | exit c => simpa [bindO] using hle1
    | crash m => simpa [bindO] using hle1
    | ok a =>
      cases a
      simp only [bindO]
      have htok : cfg.flyApiToken ≠ "" := by
        intro htok
        rw [provision_token_empty cfg R sid app rnd1 e htok] at hrun
        exact Outcome.noConfusion (congrArg Prod.fst hrun)
      rcases hpersist e1 hrun with h200 | hcnt
      · rw [provision_exists_run cfg R sid app rnd2 e1 htok h200]
        simpa [countCreateApp, List.countP_append, List.countP_cons,
               isCreateAppCall_get HTTPMethod.GET _ none (by simp), appGetCall] using hle1
      · have := provision_count_le cfg R sid app rnd2 e1
        omega

/-- Claim C2: for a previously unprovisioned student (existence GET not
200), `provision_jupyter` issues exactly one app-create, then one
volume-create, then one machine-create call, in that order; when all three
succeed it writes the access record, whose token is a URL-safe string of at
least 20 characters, and whose URL host is
`<prefix><student_id>.<base_domain>`. -/
theorem provision_fresh_creates_in_order (σ : Type) (cfg : Config) (R : Remote σ)
    (sid app : String) (rnd : List Nat) (szn : Int) (e : Eff σ)
    (htok : cfg.flyApiToken ≠ "")
    (happ : app = cfg.flyAppPref ++ sid)
    (hrnd : rnd.length = 32)
    (hsz : pyInt cfg.volumeSize = some szn)
    (o0 : HttpOutcome) (s1 : σ)
    (h0 : R.handle e.rs (appGetCall app) = (o0, s1))
    (h0s : respStatus o0 ≠ 200)
    (o1 : HttpOutcome) (s2 : σ)
    (h1 : R.handle s1 (createAppCall cfg app) = (o1, s2))
    (h1s : respStatus o1 = 200 ∨ respStatus o1 = 201)
    (o2 : HttpOutcome) (s3 : σ)
    (h2 : R.handle s2 (createVolumeCall app "user_data" szn) = (o2, s3))
    (h2s : respStatus o2 = 200 ∨ respStatus o2 = 201)
    (o3 : HttpOutcome) (s4 : σ)
    (h3 : R.handle s3 (createMachineCall cfg app (Json.str (token_urlsafe rnd)) sid) = (o3, s4))
    (h3s : respStatus o3 = 200 ∨ respStatus o3 = 201) :
    provision_jupyter cfg R sid app rnd e =
      (Outcome.ok (),
       { rs := s4,
         store := storeWrite sid (accessInfoJson cfg sid app (token_urlsafe rnd)) e.store,
         calls := e.calls ++ [appGetCall app, createAppCall cfg app,
                              createVolumeCall app "user_data" szn,
                              createMachineCall cfg app (Json.str (token_urlsafe rnd)) sid],
         out := e.out ++ [Msg.creatingNew sid, Msg.deployed sid,
                          Msg.accessURL (accessUrl cfg app (token_urlsafe rnd))] }) ∧
    20 ≤ (token_urlsafe rnd).length ∧
    (∀ c ∈ (token_urlsafe rnd).data, isUrlSafeChar c = true) ∧
    accessUrl cfg app (token_urlsafe rnd) =
      "https://" ++ (cfg.flyAppPref ++ sid ++ "." ++ cfg.baseDomain) ++ "/lab?token=" ++
        token_urlsafe rnd := by
  refine ⟨?_, ?_, token_urlsafe_chars rnd, ?_⟩
  · unfold provision_jupyter
    rw [make_api_request_eq cfg R _ _ _ _ htok]
    simp only [appGetCall] at h0
    rw [h0]
    dsimp only
    simp only [bindO]
    rw [if_neg (by simpa [respStatus] using h0s)]
    rw [create_app_run cfg R app
        { e with rs := s1,
                 calls := e.calls ++ [ApiCall.mk HTTPMethod.GET ("/v1/apps/" ++ app) none],
                 out := e.out ++ [Msg.creatingNew sid] } htok o1 s2 h1]
    rw [if_pos h1s]
    simp only [bindO]
    rw [create_volume_run cfg R app "user_data" cfg.volumeSize szn
        { e with rs := s2,
                 calls := (e.calls ++ [ApiCall.mk HTTPMethod.GET ("/v1/apps/" ++ app) none]) ++
                          [createAppCall cfg app],
                 out := e.out ++ [Msg.creatingNew sid] } htok hsz o2 s3 h2]
    rw [if_pos h2s]
    simp only [bindO]
    rw [create_machine_run cfg R app (Json.str (token_urlsafe rnd)) sid
        { e with rs := s3,
                 calls := ((e.calls ++ [ApiCall.mk HTTPMethod.GET ("/v1/apps/" ++ app) none]) ++
                           [createAppCall cfg app]) ++ [createVolumeCall app "user_data" szn],
                 out := e.out ++ [Msg.creatingNew sid] } htok o3 s4 h3]
    rw [if_pos h3s]
    simp only [bindO]
    simp [appGetCall, List.append_assoc]
  · have := token_urlsafe_length rnd
    omega
  · subst happ
    simp [accessUrl, String.append_assoc]

/-- Witness for claim C2: a fresh provisioning of student `"alice"` against
a remote on which nothing exists and every mutation succeeds with 201. -/
theorem provision_fresh_creates_in_order_witness :
    provision_jupyter cfgW (pureRemote fNewW) "alice" "jupyter-alice"
        (List.replicate 32 0) effW =
      (Outcome.ok (),
       { rs := (),
         store := storeWrite "alice"
           (accessInfoJson cfgW "alice" "jupyter-alice" (token_urlsafe (List.replicate 32 0)))
           effW.store,
         calls := effW.calls ++ [appGetCall "jupyter-alice", createAppCall cfgW "jupyter-alice",
                                 createVolumeCall "jupyter-alice" "user_data" 10,
                                 createMachineCall cfgW "jupyter-alice"
                                   (Json.str (token_urlsafe (List.replicate 32 0))) "alice"],
         out := effW.out ++ [Msg.creatingNew "alice", Msg.deployed "alice",
                             Msg.accessURL (accessUrl cfgW "jupyter-alice"
                               (token_urlsafe (List.replicate 32 0)))] }) ∧
    20 ≤ (token_urlsafe (List.replicate 32 0)).length ∧
    (∀ c ∈ (token_urlsafe (List.replicate 32 0)).data, isUrlSafeChar c = true) ∧
    accessUrl cfgW "jupyter-alice" (token_urlsafe (List.replicate 32 0)) =
      "https://" ++ (cfgW.flyAppPref ++ "alice" ++ "." ++ cfgW.baseDomain) ++ "/lab?token=" ++
        token_urlsafe (List.replicate 32 0) :=
  provision_fresh_creates_in_order Unit cfgW (pureRemote fNewW) "alice" "jupyter-alice"
    (List.replicate 32 0) 10 effW (by decide) rfl (by simp) rfl
    (HttpOutcome.httpError 404 (RespBody.textBody "nf")) () rfl (by decide)
    (HttpOutcome.ok 201 okJsonBody) () rfl (Or.inr rfl)
    (HttpOutcome.ok 201 okJsonBody) () rfl (Or.inr rfl)
    (HttpOutcome.ok 201 okJsonBody) () rfl (Or.inr rfl)

/-- Witness for claim C1 at a concrete configuration and remote on which
the application already exists. -/
theorem provision_idempotent_short_circuit_witness :
    provision_jupyter cfgW (pureRemote fExistsW) "alice" "jupyter-alice" [] effW =
      (Outcome.ok (),
       { effW with rs := (),
                   calls := [appGetCall "jupyter-alice"],
                   out := [Msg.alreadyExists "alice",
                           Msg.accessURL (accessUrl cfgW "jupyter-alice" "")] }) ∧
    countCreateApp
      (provisionTwice cfgW (pureRemote fExistsW) "alice" "jupyter-alice" [] [] effW).2.calls ≤
      countCreateApp effW.calls + 1 := by
  constructor
  · exact provision_idempotent_short_circuit.1 Unit cfgW (pureRemote fExistsW)
      "alice" "jupyter-alice" [] effW (by decide) rfl
  · exact provision_idempotent_short_circuit.2 Unit cfgW (pureRemote fExistsW)
      "alice" "jupyter-alice" [] [] effW (fun e1 _ => Or.inl rfl)

/-- A pre-existing access record for `"alice"` whose stored token is
`"T0"`, as a first successful provisioning with that token would have
written it. -/
def storedC3 : Json := accessInfoJson cfgW "alice" "jupyter-alice" "T0"

/-- Effect state of a later session: the store already holds Alice's
record. -/
def effC3 : Eff Unit := ⟨(), [("alice", storedC3)], [], []⟩

/-- The entropy drawn at the second provisioning. -/
def rndC3 : List Nat := List.replicate 32 1

/-- Claim C3 (code bug): on the "already exists" short-circuit the code
reports an access URL built from the token freshly drawn at line 208 of
manage.py, not from the previously stored token: with Alice's record
holding token `"T0"`, the reported URL embeds `token_urlsafe rndC3`, which
differs from `"T0"`, so the reported URL is not the stored (re-derivable)
access URL. -/
theorem provision_exists_reports_fresh_token :
    provision_jupyter cfgW (pureRemote fExistsW) "alice" "jupyter-alice" rndC3 effC3 =
      (Outcome.ok (),
       { effC3 with
         calls := [appGetCall "jupyter-alice"],
         out := [Msg.alreadyExists "alice",
                 Msg.accessURL (accessUrl cfgW "jupyter-alice" (token_urlsafe rndC3))] }) ∧
    pyDictGet storedC3 "token" Json.null = Outcome.ok (Json.str "T0") ∧
    token_urlsafe rndC3 ≠ "T0" ∧
    accessUrl cfgW "jupyter-alice" (token_urlsafe rndC3) ≠
      accessUrl cfgW "jupyter-alice" "T0" :=
  ⟨rfl, rfl, by decide, by decide⟩

/-- A machine listing with one already-stopped and one running machine;
all stop requests succeed with 200. -/
def fTwoW : ApiCall → HttpOutcome := fun c =>
  if c.method == HTTPMethod.GET then
    HttpOutcome.ok 200 (RespBody.jsonBody "[..]"
      (Json.arr [Json.obj [("id", Json.str "m1"), ("state", Json.str "stopped")],
                 Json.obj [("id", Json.str "m2"), ("state", Json.str "started")]]))
  else HttpOutcome.ok 200 okJsonBody

/-- One machine dict `{"id": ..., "state": ...}` as the control plane
lists them, from an (id, state) pair. -/
def mkMachineJson (p : String × String) : Json :=
  Json.obj [("id", Json.str p.1), ("state", Json.str p.2)]

/-- The console output of the stop loop for one machine: an individual
failure report when the stop response status is outside {200, 204},
always followed by the success message. -/
def stopMsgs (f : ApiCall → HttpOutcome) (sid app : String) (p : String × String) :
    List Msg :=
  (if respStatus (f (stopCallOf app p.1)) = 200 ∨ respStatus (f (stopCallOf app p.1)) = 204
   then [] else [Msg.failedStopMachine p.1 sid]) ++ [Msg.stoppedMachine p.1 sid]

/-- Unfolding of one stateless-remote exchange. -/
theorem pureRemote_handle (f : ApiCall → HttpOutcome) (s : Unit) (c : ApiCall) :
    (pureRemote f).handle s c = (f c, ()) := rfl

/-- The result of `get_machines` when the listing GET succeeds with a
parseable body. -/
theorem get_machines_run {σ : Type} (cfg : Config) (R : Remote σ) (app : String)
    (e : Eff σ) (htok : cfg.flyApiToken ≠ "") (raw : String) (j : Json) (s' : σ)
    (h : R.handle e.rs (machinesGetCall app) =
      (HttpOutcome.ok 200 (RespBody.jsonBody raw j), s')) :
    get_machines cfg R app e =
      (Outcome.ok j, { e with rs := s', calls := e.calls ++ [machinesGetCall app] }) := by
  unfold get_machines
  rw [make_api_request_eq cfg R _ _ _ _ htok]
  simp only [machinesGetCall] at h
  rw [h]
  rfl

/-- The result of `get_machines` when the listing GET does not report
status 200: the empty list. -/
theorem get_machines_fail {σ : Type} (cfg : Config) (R : Remote σ) (app : String)
    (e : Eff σ) (htok : cfg.flyApiToken ≠ "") (o : HttpOutcome) (s' : σ)
    (h : R.handle e.rs (machinesGetCall app) = (o, s')) (hne : respStatus o ≠ 200) :
    get_machines cfg R app e =
      (Outcome.ok (Json.arr []),
       { e with rs := s', calls := e.calls ++ [machinesGetCall app] }) := by
  unfold get_machines
  rw [make_api_request_eq cfg R _ _ _ _ htok]
  simp only [machinesGetCall] at h
  rw [h]
  dsimp only
  simp only [bindO]
  simp only [respStatus] at hne
  rw [if_pos hne]
  rfl

/-- The stop loop posts a stop for every listed machine, regardless of its
state, and returns normally. -/
theorem stopLoop_run (cfg : Config) (f : ApiCall → HttpOutcome) (sid app : String)
    (htok : cfg.flyApiToken ≠ "") :
    ∀ (mlist : List (String × String)) (e : Eff Unit),
      stopMachinesLoop cfg (pureRemote f) sid app (mlist.map mkMachineJson) e =
        (Outcome.ok (),
         { e with calls := e.calls ++ mlist.map (fun p => stopCallOf app p.1),
                  out := e.out ++ mlist.flatMap (stopMsgs f sid app) })
  | [], e => by simp [stopMachinesLoop]
  | (i, st) :: rest, e => by
    have ih := stopLoop_run cfg f sid app htok rest
    simp only [List.map_cons]
    unfold stopMachinesLoop
    rw [show pyGetItem (mkMachineJson (i, st)) "id" = Outcome.ok (Json.str i) from rfl]
    dsimp only [pyStrOfJson]
    rw [make_api_request_eq cfg (pureRemote f) _ _ _ _ htok]
    simp only [pureRemote_handle]
    by_cases hc : respStatus (f (stopCallOf app i)) = 200 ∨
        respStatus (f (stopCallOf app i)) = 204
    · have hc' := hc
      simp only [stopCallOf, respStatus] at hc'
      rw [if_pos hc']
      rw [ih]
      simp [stopMsgs, stopCallOf, respStatus, hc', List.append_assoc]
    · have hc' := hc
      simp only [stopCallOf, respStatus] at hc'
      rw [if_neg hc']
      rw [ih]
      simp [stopMsgs, stopCallOf, respStatus, hc', List.append_assoc]

/-- Claim C4 (amended): `terminate_jupyter` issues a stop call for every
machine in the listing regardless of its state; a missing app or empty
machine list is reported as "no running machines found" and the operation
returns normally without a stop call; a machine whose stop response status
is outside {200, 204} gets an individual failure report (followed by an
unconditional success message) and the remaining machines are still
attempted. -/
theorem stop_stops_every_machine :
    (∀ (cfg : Config) (f : ApiCall → HttpOutcome) (sid app raw : String)
       (mlist : List (String × String)) (e : Eff Unit),
      cfg.flyApiToken ≠ "" →
      f (machinesGetCall app) =
        HttpOutcome.ok 200 (RespBody.jsonBody raw (Json.arr (mlist.map mkMachineJson))) →
      terminate_jupyter cfg (pureRemote f) sid app e =
        (Outcome.ok (),
         { e with
           calls := (e.calls ++ [machinesGetCall app]) ++
                    mlist.map (fun p => stopCallOf app p.1),
           out := if mlist = [] then e.out ++ [Msg.noRunningMachines sid]
                  else e.out ++ mlist.flatMap (stopMsgs f sid app) })) ∧
    (∀ (cfg : Config) (f : ApiCall → HttpOutcome) (sid app : String) (e : Eff Unit),
      cfg.flyApiToken ≠ "" →
      respStatus (f (machinesGetCall app)) ≠ 200 →
      terminate_jupyter cfg (pureRemote f) sid app e =
        (Outcome.ok (),
         { e with calls := e.calls ++ [machinesGetCall app],
                  out := e.out ++ [Msg.noRunningMachines sid] })) := by
  constructor
  · intro cfg f sid app raw mlist e htok hm
    unfold terminate_jupyter
    rw [get_machines_run cfg (pureRemote f) app e htok raw
        (Json.arr (mlist.map mkMachineJson)) () (by simpa [pureRemote] using congrArg (fun o => (o, ())) hm)]
    simp only [bindO]
    cases mlist with
    | nil =>
      simp only [List.map_nil]
      rw [if_pos (show Json.truthy (Json.arr []) = false from rfl)]
      simp
    | cons p rest =>
      rw [if_neg (by simp [Json.truthy])]
      rw [stopLoop_run cfg f sid app htok (p :: rest)]
      simp
  · intro cfg f sid app e htok hne
    unfold terminate_jupyter
    rw [get_machines_fail cfg (pureRemote f) app e htok (f (machinesGetCall app)) ()
        rfl hne]
    simp only [bindO]
    rw [if_pos (show Json.truthy (Json.arr []) = false from rfl)]

/-- A remote on which nothing exists: every request reports 404. -/
def f404W : ApiCall → HttpOutcome := fun _ =>
  HttpOutcome.httpError 404 (RespBody.textBody "nf")

/-- Witness for claim C4 (amended) at the two-machine listing of `fTwoW`
and at a missing app. -/
theorem stop_stops_every_machine_witness :
    terminate_jupyter cfgW (pureRemote fTwoW) "alice" "jupyter-alice" effW =
      (Outcome.ok (),
       { effW with
         calls := (effW.calls ++ [machinesGetCall "jupyter-alice"]) ++
                  [("m1", "stopped"), ("m2", "started")].map
                    (fun p => stopCallOf "jupyter-alice" p.1),
         out := effW.out ++
                [("m1", "stopped"), ("m2", "started")].flatMap
                  (stopMsgs fTwoW "alice" "jupyter-alice") }) ∧
    terminate_jupyter cfgW (pureRemote f404W) "alice" "jupyter-alice" effW =
      (Outcome.ok (),
       { effW with calls := effW.calls ++ [machinesGetCall "jupyter-alice"],
                   out := effW.out ++ [Msg.noRunningMachines "alice"] }) := by
  constructor
  · have h := stop_stops_every_machine.1 cfgW fTwoW "alice" "jupyter-alice" "[..]"
      [("m1", "stopped"), ("m2", "started")] effW (by decide) rfl
    simpa using h
  · exact stop_stops_every_machine.2 cfgW f404W "alice" "jupyter-alice" effW
      (by decide) (by decide)

/-- Counterexample to claim C4: with two machines of which `m1` is already
stopped, `terminate_jupyter` issues a stop call for both machines — two
stop calls, not exactly one. -/
theorem stop_issues_two_calls_counterexample :
    (terminate_jupyter cfgW (pureRemote fTwoW) "alice" "jupyter-alice" effW).2.calls =
      [machinesGetCall "jupyter-alice", stopCallOf "jupyter-alice" "m1",
       stopCallOf "jupyter-alice" "m2"] ∧
    countStop (terminate_jupyter cfgW (pureRemote fTwoW) "alice" "jupyter-alice" effW).2.calls
      = 2 :=
  ⟨rfl, rfl⟩

/-- The `"JUPYTER_TOKEN"` entry of a machine-create body's environment. -/
def machineEnvToken (d : Json) : Option Json :=
  match d with
  | Json.obj kvs =>
    match List.lookup "config" kvs with
    | some (Json.obj ckvs) =>
      match List.lookup "env" ckvs with
      | some (Json.obj ekvs) => List.lookup "JUPYTER_TOKEN" ekvs
      | _ => none
    | _ => none
  | _ => none

/-- The console output of the start loop for one machine: nothing for an
already-started machine; otherwise an individual failure report when the
start response status is outside {200, 204}, always followed by the
success message. -/
def startMsgs (f : ApiCall → HttpOutcome) (sid app : String) (p : String × String) :
    List Msg :=
  if p.2 = "started" then []
  else
    (if respStatus (f (startCallOf app p.1)) = 200 ∨
        respStatus (f (startCallOf app p.1)) = 204
     then [] else [Msg.failedStartMachine p.1 sid]) ++ [Msg.startedMachine p.1 sid]

/-- The start loop posts a start exactly for the machines whose state is
not `"started"`, and returns normally. -/
theorem startLoop_run (cfg : Config) (f : ApiCall → HttpOutcome) (sid app : String)
    (htok : cfg.flyApiToken ≠ "") :
    ∀ (mlist : List (String × String)) (e : Eff Unit),
      startMachinesLoop cfg (pureRemote f) sid app (mlist.map mkMachineJson) e =
        (Outcome.ok (),
         { e with
           calls := e.calls ++ (mlist.filter (fun p => !(p.2 == "started"))).map
                      (fun p => startCallOf app p.1),
           out := e.out ++ mlist.flatMap (startMsgs f sid app) })
  | [], e => by simp [startMachinesLoop]
  | (i, st) :: rest, e => by
    have ih := startLoop_run cfg f sid app htok rest
    simp only [List.map_cons]
    unfold startMachinesLoop
    rw [show pyGetItem (mkMachineJson (i, st)) "state" = Outcome.ok (Json.str st) from rfl]
    dsimp only
    by_cases hst : st = "started"
    · rw [if_pos (show jsonEqStr (Json.str st) "started" = true by simp [jsonEqStr, hst])]
      rw [ih]
      simp [startMsgs, hst, List.filter_cons]
    · rw [if_neg (show ¬jsonEqStr (Json.str st) "started" = true by simp [jsonEqStr, hst])]
      rw [show pyGetItem (mkMachineJson (i, st)) "id" = Outcome.ok (Json.str i) from rfl]
      dsimp only [pyStrOfJson]
      rw [make_api_request_eq cfg (pureRemote f) _ _ _ _ htok]
      simp only [pureRemote_handle]
      by_cases hc : respStatus (f (startCallOf app i)) = 200 ∨
          respStatus (f (startCallOf app i)) = 204
      · have hc' := hc
        simp only [startCallOf, respStatus] at hc'
        rw [if_pos hc']
        rw [ih]
        simp [startMsgs, startCallOf, respStatus, hst, hc', List.filter_cons,
              List.append_assoc]
      · have hc' := hc
        simp only [startCallOf, respStatus] at hc'
        rw [if_neg hc']
        rw [ih]
        simp [startMsgs, startCallOf, respStatus, hst, hc', List.filter_cons,
              List.append_assoc]

/-- Claim C5: `start_jupyter` (1) reports "no instance found" and issues
no further call when the app GET is not 200; (2) with machines present,
posts a start exactly for each machine whose state is not `"started"`;
(3) with zero machines and an existing access record whose token is `T`,
recreates a machine whose environment carries `T` (the freshly drawn token
is unused); (4) with zero machines and no record, creates the machine with
the freshly minted token. -/
theorem start_reuses_stored_token :
    (∀ (cfg : Config) (f : ApiCall → HttpOutcome) (sid app freshTok : String) (e : Eff Unit),
      cfg.flyApiToken ≠ "" →
      respStatus (f (appGetCall app)) ≠ 200 →
      start_jupyter cfg (pureRemote f) sid app freshTok e =
        (Outcome.ok (),
         { e with calls := e.calls ++ [appGetCall app],
                  out := e.out ++ [Msg.noInstanceFound sid] })) ∧
    (∀ (cfg : Config) (f : ApiCall → HttpOutcome) (sid app freshTok raw : String)
       (mlist : List (String × String)) (e : Eff Unit),
      cfg.flyApiToken ≠ "" →
      respStatus (f (appGetCall app)) = 200 →
      f (machinesGetCall app) =
        HttpOutcome.ok 200 (RespBody.jsonBody raw (Json.arr (mlist.map mkMachineJson))) →
      mlist ≠ [] →
      start_jupyter cfg (pureRemote f) sid app freshTok e =
        (Outcome.ok (),
         { e with
           calls := (e.calls ++ [appGetCall app, machinesGetCall app]) ++
                    (mlist.filter (fun p => !(p.2 == "started"))).map
                      (fun p => startCallOf app p.1),
           out := e.out ++ mlist.flatMap (startMsgs f sid app) })) ∧
    (∀ (cfg : Config) (f : ApiCall → HttpOutcome) (sid app freshTok tokT raw : String)
       (ai : Json) (e : Eff Unit),
      cfg.flyApiToken ≠ "" →
      respStatus (f (appGetCall app)) = 200 →
      f (machinesGetCall app) =
        HttpOutcome.ok 200 (RespBody.jsonBody raw (Json.arr [])) →
      storeLookup sid e.store = some ai →
      pyDictGet ai "token" (Json.str freshTok) = Outcome.ok (Json.str tokT) →
      (respStatus (f (createMachineCall cfg app (Json.str tokT) sid)) = 200 ∨
       respStatus (f (createMachineCall cfg app (Json.str tokT) sid)) = 201) →
      start_jupyter cfg (pureRemote f) sid app freshTok e =
        (Outcome.ok (),
         { e with
           calls := e.calls ++ [appGetCall app, machinesGetCall app,
                                createMachineCall cfg app (Json.str tokT) sid],
           out := e.out ++ [Msg.recreatedMachine sid] }) ∧
      machineEnvToken (machineCreateData cfg (Json.str tokT) sid) =
        some (Json.str tokT)) ∧
    (∀ (cfg : Config) (f : ApiCall → HttpOutcome) (sid app freshTok raw : String)
       (e : Eff Unit),
      cfg.flyApiToken ≠ "" →
      respStatus (f (appGetCall app)) = 200 →
      f (machinesGetCall app) =
        HttpOutcome.ok 200 (RespBody.jsonBody raw (Json.arr [])) →
      storeLookup sid e.store = none →
      (respStatus (f (createMachineCall cfg app (Json.str freshTok) sid)) = 200 ∨
       respStatus (f (createMachineCall cfg app (Json.str freshTok) sid)) = 201) →
      start_jupyter cfg (pureRemote f) sid app freshTok e =
        (Outcome.ok (),
         { e with
           calls := e.calls ++ [appGetCall app, machinesGetCall app,
                                createMachineCall cfg app (Json.str freshTok) sid],
           out := e.out ++ [Msg.createdNewMachine sid] })) := by
  refine ⟨?_, ?_, ?_, ?_⟩
  · intro cfg f sid app freshTok e htok hne
    unfold start_jupyter
    rw [make_api_request_eq cfg (pureRemote f) _ _ _ _ htok]
    simp only [pureRemote_handle]
    simp only [bindO]
    simp only [appGetCall, respStatus] at hne
    rw [if_pos hne]
    rfl
  · intro cfg f sid app freshTok raw mlist e htok h200 hm hne
    unfold start_jupyter
    rw [make_api_request_eq cfg (pureRemote f) _ _ _ _ htok]
    simp only [pureRemote_handle]
    simp only [bindO]
    simp only [appGetCall, respStatus] at h200
    rw [if_neg (not_not_intro h200)]
    rw [get_machines_run cfg (pureRemote f) app _ htok raw
        (Json.arr (mlist.map mkMachineJson)) () (by rw [pureRemote_handle, hm])]
    simp only [bindO]
    rw [if_pos (show Json.truthy (Json.arr (mlist.map mkMachineJson)) = true by
      cases mlist with
      | nil => exact absurd rfl hne
      | cons p rest => simp [Json.truthy])]
    rw [startLoop_run cfg f sid app htok mlist]
    simp [appGetCall, machinesGetCall, List.append_assoc]
  · intro cfg f sid app freshTok tokT raw ai e htok h200 hm hlook htokv hcm
    refine ⟨?_, rfl⟩
    unfold start_jupyter
    rw [make_api_request_eq cfg (pureRemote f) _ _ _ _ htok]
    simp only [pureRemote_handle]
    simp only [bindO]
    simp only [appGetCall, respStatus] at h200
    rw [if_neg (not_not_intro h200)]
    rw [get_machines_run cfg (pureRemote f) app _ htok raw (Json.arr []) ()
        (by rw [pureRemote_handle, hm])]
    simp only [bindO]
    rw [if_neg (show ¬Json.truthy (Json.arr []) = true by simp [Json.truthy])]
    rw [hlook]
    dsimp only
    rw [htokv]
    dsimp only
    rw [create_machine_run cfg (pureRemote f) app (Json.str tokT) sid _ htok
        (f (createMachineCall cfg app (Json.str tokT) sid)) ()
        (by rw [pureRemote_handle])]
    rw [if_pos hcm]
    simp only [bindO]
    simp [appGetCall, machinesGetCall, List.append_assoc]
  · intro cfg f sid app freshTok raw e htok h200 hm hlook hcm
    unfold start_jupyter
    rw [make_api_request_eq cfg (pureRemote f) _ _ _ _ htok]
    simp only [pureRemote_handle]
    simp only [bindO]
    simp only [appGetCall, respStatus] at h200
    rw [if_neg (not_not_intro h200)]
    rw [get_machines_run cfg (pureRemote f) app _ htok raw (Json.arr []) ()
        (by rw [pureRemote_handle, hm])]
    simp only [bindO]
    rw [if_neg (show ¬Json.truthy (Json.arr []) = true by simp [Json.truthy])]
    rw [hlook]
    dsimp only
    rw [create_machine_run cfg (pureRemote f) app (Json.str freshTok) sid _ htok
        (f (createMachineCall cfg app (Json.str freshTok) sid)) ()
        (by rw [pureRemote_handle])]
    rw [if_pos hcm]
    simp only [bindO]
    simp [appGetCall, machinesGetCall, List.append_assoc]

/-- A remote with an existing but machine-less application: every GET of
the machine listing yields an empty array, the app GET succeeds, and
machine creation succeeds with 201. -/
def fEmptyW : ApiCall → HttpOutcome := fun c =>
  if c.method == HTTPMethod.GET then
    if strEndsWith c.path "/machines" then
      HttpOutcome.ok 200 (RespBody.jsonBody "[]" (Json.arr []))
    else HttpOutcome.ok 200 okJsonBody
  else HttpOutcome.ok 201 okJsonBody

/-- Witness for claim C5: all four branches exercised — missing app,
mixed machine states, token reuse from Alice's stored record (token
`"T0"`, fresh draw `"FRESH"` unused), and fresh-token creation without a
record. -/
theorem start_reuses_stored_token_witness :
    start_jupyter cfgW (pureRemote f404W) "alice" "jupyter-alice" "FRESH" effW =
      (Outcome.ok (),
       { effW with calls := effW.calls ++ [appGetCall "jupyter-alice"],
                   out := effW.out ++ [Msg.noInstanceFound "alice"] }) ∧
    start_jupyter cfgW (pureRemote fTwoW) "alice" "jupyter-alice" "FRESH" effW =
      (Outcome.ok (),
       { effW with
         calls := (effW.calls ++ [appGetCall "jupyter-alice", machinesGetCall "jupyter-alice"]) ++
                  ([("m1", "stopped"), ("m2", "started")].filter
                    (fun p => !(p.2 == "started"))).map
                    (fun p => startCallOf "jupyter-alice" p.1),
         out := effW.out ++ [("m1", "stopped"), ("m2", "started")].flatMap
                  (startMsgs fTwoW "alice" "jupyter-alice") }) ∧
    (start_jupyter cfgW (pureRemote fEmptyW) "alice" "jupyter-alice" "FRESH" effC3 =
      (Outcome.ok (),
       { effC3 with
         calls := effC3.calls ++ [appGetCall "jupyter-alice", machinesGetCall "jupyter-alice",
                                  createMachineCall cfgW "jupyter-alice" (Json.str "T0") "alice"],
         out := effC3.out ++ [Msg.recreatedMachine "alice"] }) ∧
     machineEnvToken (machineCreateData cfgW (Json.str "T0") "alice") =
       some (Json.str "T0")) ∧
    start_jupyter cfgW (pureRemote fEmptyW) "alice" "jupyter-alice" "FRESH" effW =
      (Outcome.ok (),
       { effW with
         calls := effW.calls ++ [appGetCall "jupyter-alice", machinesGetCall "jupyter-alice",
                                 createMachineCall cfgW "jupyter-alice" (Json.str "FRESH") "alice"],
         out := effW.out ++ [Msg.createdNewMachine "alice"] }) := by
  refine ⟨?_, ?_, ?_, ?_⟩
  · exact start_reuses_stored_token.1 cfgW f404W "alice" "jupyter-alice" "FRESH" effW
      (by decide) (by decide)
  · exact start_reuses_stored_token.2.1 cfgW fTwoW "alice" "jupyter-alice" "FRESH" "[..]"
      [("m1", "stopped"), ("m2", "started")] effW (by decide) rfl rfl (by decide)
  · exact start_reuses_stored_token.2.2.1 cfgW fEmptyW "alice" "jupyter-alice" "FRESH"
      "T0" "[]" storedC3 effC3 (by decide) rfl rfl rfl rfl (Or.inr rfl)
  · exact start_reuses_stored_token.2.2.2 cfgW fEmptyW "alice" "jupyter-alice" "FRESH"
      "[]" effW (by decide) rfl rfl rfl (Or.inr rfl)

/-- Claim C6: `delete_jupyter` with any confirmation answer whose
lowercase form is not `"y"` (the code's notion of a yes-answer at its
`(y/N)` prompt — note the literal answer `"yes"` also cancels) performs no
API call, changes no state, and reports the operation as canceled. -/
theorem delete_unconfirmed_no_calls (σ : Type) (cfg : Config) (R : Remote σ)
    (sid app answer : String) (e : Eff σ)
    (hans : pyLower answer ≠ "y") :
    delete_jupyter cfg R sid app answer e =
      (Outcome.ok (), { e with out := e.out ++ [Msg.operationCanceled] }) := by
  unfold delete_jupyter
  rw [if_pos hans]

/-- Witness for claim C6 with answer `"n"`. -/
theorem delete_unconfirmed_no_calls_witness :
    delete_jupyter cfgW (pureRemote fExistsW) "alice" "jupyter-alice" "n" effW =
      (Outcome.ok (), { effW with out := effW.out ++ [Msg.operationCanceled] }) :=
  delete_unconfirmed_no_calls Unit cfgW (pureRemote fExistsW) "alice" "jupyter-alice"
    "n" effW (by decide)

/-- The `"name"` field of a create request body, used by test remotes to
distinguish app-create calls. -/
def reqNameW (d : Option Json) : String :=
  match d with
  | some (Json.obj kvs) =>
    match List.lookup "name" kvs with
    | some (Json.str s) => s
    | _ => ""
  | _ => ""

/-- A remote on which nothing exists, creating the empty-student app
`"jupyter-"` fails with 422, and every other mutation succeeds. -/
def f7W : ApiCall → HttpOutcome := fun c =>
  if c.method == HTTPMethod.GET then HttpOutcome.httpError 404 (RespBody.textBody "nf")
  else if c.path == "/v1/apps" && reqNameW c.data == "jupyter-" then
    HttpOutcome.httpError 422 (RespBody.textBody "invalid name")
  else HttpOutcome.ok 201 okJsonBody

/-- The batch file of the claim: bob, an empty student id, carol. -/
def lines7W : List String := ["bob,standard", ",standard", "carol,high"]

/-- Counterexample to claim C7: on the batch
`[("bob","standard"), ("","standard"), ("carol","high")]` with the
empty-name app-create failing, the empty entry is not reported as
malformed (it is provisioned as app `"jupyter-"`), the resulting
`sys.exit(1)` of `create_app` terminates the whole batch, and no call for
`"carol"` is ever issued. -/
theorem batch_failure_aborts_counterexample :
    batchRun cfgW (pureRemote f7W) lines7W [[]] effW =
      (Outcome.exit 1,
       ⟨(), [("bob", accessInfoJson cfgW "bob" "jupyter-bob" "")],
        [appGetCall "jupyter-bob", createAppCall cfgW "jupyter-bob",
         createVolumeCall "jupyter-bob" "user_data" 10,
         createMachineCall cfgW "jupyter-bob" (Json.str "") "bob",
         appGetCall "jupyter-", createAppCall cfgW "jupyter-"],
        [Msg.provisioningFor "bob", Msg.creatingNew "bob", Msg.deployed "bob",
         Msg.accessURL "https://jupyter-bob.example.com/lab?token=",
         Msg.provisioningFor "", Msg.creatingNew "",
         Msg.failedCreateApp (some (ErrPayload.textErr "invalid name"))]⟩) ∧
    Msg.invalidLineFormat ",standard" ∉
      (batchRun cfgW (pureRemote f7W) lines7W [[]] effW).2.out ∧
    (∀ c ∈ (batchRun cfgW (pureRemote f7W) lines7W [[]] effW).2.calls,
      c.path ≠ "/v1/apps/jupyter-carol") := by
  refine ⟨rfl, ?_, by decide⟩
  rw [show (batchRun cfgW (pureRemote f7W) lines7W [[]] effW).2.out =
      [Msg.provisioningFor "bob", Msg.creatingNew "bob", Msg.deployed "bob",
       Msg.accessURL "https://jupyter-bob.example.com/lab?token=",
       Msg.provisioningFor "", Msg.creatingNew "",
       Msg.failedCreateApp (some (ErrPayload.textErr "invalid name"))] from rfl]
  simp

/-- Claim C7 (amended): a line with fewer than two comma-separated fields
is reported as invalid and skipped; any other line — including one whose
first field, the student id, is empty — is handed to `provision_jupyter`
unchanged (there is no malformed-entry check beyond the field count); and
provisioning failures are not caught at the batch boundary: when an
entry's provisioning exits the process, the batch terminates with it and
the remaining entries are never processed; only a normal return lets the
batch continue. -/
theorem batch_line_handling :
    (∀ (σ : Type) (cfg : Config) (R : Remote σ) (line : String) (rest : List String)
       (rnds : List (List Nat)) (e : Eff σ),
      pyStrip line ≠ "" → startsHash line = false →
      (pySplit (pyStrip line) ',').length < 2 →
      batchRun cfg R (line :: rest) rnds e =
        batchRun cfg R rest rnds
          { e with out := e.out ++ [Msg.invalidLineFormat (pyStrip line)] }) ∧
    (∀ (σ : Type) (cfg : Config) (R : Remote σ) (line : String) (rest : List String)
       (rnds : List (List Nat)) (e e2 : Eff σ) (c : Nat),
      pyStrip line ≠ "" → startsHash line = false →
      ¬(pySplit (pyStrip line) ',').length < 2 →
      provision_jupyter cfg R ((pySplit (pyStrip line) ',').headD "")
          (cfg.flyAppPref ++ (pySplit (pyStrip line) ',').headD "") (rnds.headD [])
          { e with out := e.out ++
              [Msg.provisioningFor ((pySplit (pyStrip line) ',').headD "")] } =
        (Outcome.exit c, e2) →
      batchRun cfg R (line :: rest) rnds e = (Outcome.exit c, e2)) ∧
    (∀ (σ : Type) (cfg : Config) (R : Remote σ) (line : String) (rest : List String)
       (rnds : List (List Nat)) (e e2 : Eff σ),
      pyStrip line ≠ "" → startsHash line = false →
      ¬(pySplit (pyStrip line) ',').length < 2 →
      provision_jupyter cfg R ((pySplit (pyStrip line) ',').headD "")
          (cfg.flyAppPref ++ (pySplit (pyStrip line) ',').headD "") (rnds.headD [])
          { e with out := e.out ++
              [Msg.provisioningFor ((pySplit (pyStrip line) ',').headD "")] } =
        (Outcome.ok (), e2) →
      batchRun cfg R (line :: rest) rnds e = batchRun cfg R rest rnds.tail e2) := by
  refine ⟨?_, ?_, ?_⟩
  · intro σ cfg R line rest rnds e h1 h2 h3
    simp only [batchRun]
    rw [if_pos ⟨h1, h2⟩]
    rw [if_pos h3]
  · intro σ cfg R line rest rnds e e2 c h1 h2 h3 hprov
    simp only [batchRun]
    rw [if_pos ⟨h1, h2⟩]
    rw [if_neg h3]
    rw [hprov]
  · intro σ cfg R line rest rnds e e2 h1 h2 h3 hprov
    simp only [batchRun]
    rw [if_pos ⟨h1, h2⟩]
    rw [if_neg h3]
    rw [hprov]

/-- Witness for claim C7 (amended): a one-field line is skipped with a
report; the empty-id line `",standard"` is provisioned as `"jupyter-"`
and its failure exits the batch before `"carol,high"`; a well-formed
`"bob,standard"` line provisions and the batch continues. -/
theorem batch_line_handling_witness :
    batchRun cfgW (pureRemote f7W) ["onlyonefield"] [] effW =
      batchRun cfgW (pureRemote f7W) ([] : List String) []
        { effW with out := effW.out ++ [Msg.invalidLineFormat "onlyonefield"] } ∧
    batchRun cfgW (pureRemote f7W) [",standard", "carol,high"] [[]] effW =
      (Outcome.exit 1,
       ⟨(), [], [appGetCall "jupyter-", createAppCall cfgW "jupyter-"],
        [Msg.provisioningFor "", Msg.creatingNew "",
         Msg.failedCreateApp (some (ErrPayload.textErr "invalid name"))]⟩) ∧
    batchRun cfgW (pureRemote fNewW) ["bob,standard"] [[]] effW =
      batchRun cfgW (pureRemote fNewW) ([] : List String) []
        ⟨(), [("bob", accessInfoJson cfgW "bob" "jupyter-bob" "")],
         [appGetCall "jupyter-bob", createAppCall cfgW "jupyter-bob",
          createVolumeCall "jupyter-bob" "user_data" 10,
          createMachineCall cfgW "jupyter-bob" (Json.str "") "bob"],
         [Msg.provisioningFor "bob", Msg.creatingNew "bob", Msg.deployed "bob",
          Msg.accessURL "https://jupyter-bob.example.com/lab?token="]⟩ := by
  refine ⟨?_, ?_, ?_⟩
  · exact batch_line_handling.1 Unit cfgW (pureRemote f7W) "onlyonefield" [] [] effW
      (by decide) rfl (by decide)
  · exact batch_line_handling.2.1 Unit cfgW (pureRemote f7W) ",standard" ["carol,high"]
      [[]] effW _ 1 (by decide) rfl (by decide) rfl
  · exact batch_line_handling.2.2 Unit cfgW (pureRemote fNewW) "bob,standard" []
      [[]] effW _ (by decide) rfl (by decide) rfl

/-- A remote on which every request raises a transport-level exception. -/
def fExnW : ApiCall → HttpOutcome := fun _ => HttpOutcome.exn "connection refused"

/-- Claim C8: with the token configured, `make_api_request` always returns
a result value (no exception escapes, no exit): an HTTP error status is
tagged as a failure result carrying that status and the parsed JSON body
when parseable, else the raw text; a transport-level exception is tagged
as a failure with the 500 sentinel status and the exception message. -/
theorem api_client_error_tagging (σ : Type) (cfg : Config) (R : Remote σ)
    (m : HTTPMethod) (p : String) (d : Option Json) (e : Eff σ)
    (htok : cfg.flyApiToken ≠ "") :
    (∃ r e', make_api_request cfg R m p d e = (Outcome.ok r, e')) ∧
    (∀ code body, (R.handle e.rs (ApiCall.mk m p d)).1 = HttpOutcome.httpError code body →
      (make_api_request cfg R m p d e).1 =
        Outcome.ok (ApiResult.failure code
          (match body with
           | RespBody.jsonBody _ j => ErrPayload.jsonErr j
           | RespBody.textBody raw => ErrPayload.textErr raw))) ∧
    (∀ msg, (R.handle e.rs (ApiCall.mk m p d)).1 = HttpOutcome.exn msg →
      (make_api_request cfg R m p d e).1 =
        Outcome.ok (ApiResult.failure 500 (ErrPayload.textErr msg))) := by
  refine ⟨⟨_, _, make_api_request_eq cfg R m p d e htok⟩, ?_, ?_⟩
  · intro code body hcode
    rw [make_api_request_eq cfg R m p d e htok]
    dsimp only
    rw [hcode]
    cases body <;> rfl
  · intro msg hmsg
    rw [make_api_request_eq cfg R m p d e htok]
    dsimp only
    rw [hmsg]
    rfl

/-- Witness for claim C8: a 404 with a plain-text body is tagged
`failure 404 (textErr "nf")`; a refused connection is tagged
`failure 500 (textErr "connection refused")`. -/
theorem api_client_error_tagging_witness :
    (make_api_request cfgW (pureRemote f404W) HTTPMethod.GET "/v1/apps/x" none effW).1 =
      Outcome.ok (ApiResult.failure 404 (ErrPayload.textErr "nf")) ∧
    (make_api_request cfgW (pureRemote fExnW) HTTPMethod.GET "/v1/apps/x" none effW).1 =
      Outcome.ok (ApiResult.failure 500 (ErrPayload.textErr "connection refused")) :=
  ⟨(api_client_error_tagging Unit cfgW (pureRemote f404W) HTTPMethod.GET "/v1/apps/x"
      none effW (by decide)).2.1 404 (RespBody.textBody "nf") rfl,
   (api_client_error_tagging Unit cfgW (pureRemote fExnW) HTTPMethod.GET "/v1/apps/x"
      none effW (by decide)).2.2 "connection refused" rfl⟩

/-- A remote on which GETs report 404 and every mutation fails with 422. -/
def fFailW : ApiCall → HttpOutcome := fun c =>
  if c.method == HTTPMethod.GET then HttpOutcome.httpError 404 (RespBody.textBody "nf")
  else HttpOutcome.httpError 422 (RespBody.textBody "boom")

/-- Counterexample to claim C9: a non-2xx app-create result makes
`provision_jupyter` terminate the process via `sys.exit(1)` — abnormal
termination in normal (non-startup) operation. -/
theorem provision_substep_failure_exits_counterexample :
    provision_jupyter cfgW (pureRemote fFailW) "alice" "jupyter-alice" [] effW =
      (Outcome.exit 1,
       ⟨(), [], [appGetCall "jupyter-alice", createAppCall cfgW "jupyter-alice"],
        [Msg.creatingNew "alice", Msg.failedCreateApp (some (ErrPayload.textErr "boom"))]⟩) :=
  rfl

/-- Claim C9 (amended): a Provision sub-step whose result status is non-2xx
reports the failure and then terminates the process via `sys.exit(1)`
(abnormal termination, not a returned result); the remaining steps are
aborted by that termination — after a failing app-create, no volume- or
machine-create call is ever issued. -/
theorem substep_failure_reports_and_exits :
    (∀ (σ : Type) (cfg : Config) (R : Remote σ) (app : String) (e : Eff σ),
      cfg.flyApiToken ≠ "" →
      ∀ (o : HttpOutcome) (s' : σ),
      R.handle e.rs (createAppCall cfg app) = (o, s') →
      ¬(respStatus o = 200 ∨ respStatus o = 201) →
      create_app cfg R app e =
        (Outcome.exit 1,
         { e with rs := s', calls := e.calls ++ [createAppCall cfg app],
                  out := e.out ++ [Msg.failedCreateApp (respResult o).errField] })) ∧
    (∀ (σ : Type) (cfg : Config) (R : Remote σ) (app : String) (t : Json) (sid : String)
       (e : Eff σ),
      cfg.flyApiToken ≠ "" →
      ∀ (o : HttpOutcome) (s' : σ),
      R.handle e.rs (createMachineCall cfg app t sid) = (o, s') →
      ¬(respStatus o = 200 ∨ respStatus o = 201) →
      create_machine cfg R app t sid e =
        (Outcome.exit 1,
         { e with rs := s', calls := e.calls ++ [createMachineCall cfg app t sid],
                  out := e.out ++ [Msg.failedCreateMachine (respResult o).errField] })) ∧
    (∀ (σ : Type) (cfg : Config) (R : Remote σ) (sid app : String) (rnd : List Nat)
       (e : Eff σ),
      cfg.flyApiToken ≠ "" →
      ∀ (o0 : HttpOutcome) (s1 : σ) (o1 : HttpOutcome) (s2 : σ),
      R.handle e.rs (appGetCall app) = (o0, s1) →
      respStatus o0 ≠ 200 →
      R.handle s1 (createAppCall cfg app) = (o1, s2) →
      ¬(respStatus o1 = 200 ∨ respStatus o1 = 201) →
      provision_jupyter cfg R sid app rnd e =
        (Outcome.exit 1,
         { e with rs := s2, calls := e.calls ++ [appGetCall app, createAppCall cfg app],
                  out := e.out ++ [Msg.creatingNew sid,
                                   Msg.failedCreateApp (respResult o1).errField] })) := by
  refine ⟨?_, ?_, ?_⟩
  · intro σ cfg R app e htok o s' h hfail
    rw [create_app_run cfg R app e htok o s' h]
    rw [if_neg hfail]
  · intro σ cfg R app t sid e htok o s' h hfail
    rw [create_machine_run cfg R app t sid e htok o s' h]
    rw [if_neg hfail]
  · intro σ cfg R sid app rnd e htok o0 s1 o1 s2 h0 h0s h1 hfail
    unfold provision_jupyter
    rw [make_api_request_eq cfg R _ _ _ _ htok]
    simp only [appGetCall] at h0
    rw [h0]
    dsimp only
    simp only [bindO]
    rw [if_neg (by simpa [respStatus] using h0s)]
    rw [create_app_run cfg R app
        { e with rs := s1,
                 calls := e.calls ++ [ApiCall.mk HTTPMethod.GET ("/v1/apps/" ++ app) none],
                 out := e.out ++ [Msg.creatingNew sid] } htok o1 s2 h1]
    rw [if_neg hfail]
    simp only [bindO]
    simp [appGetCall, List.append_assoc]

/-- Witness for claim C9 (amended) on a remote failing every create with
422. -/
theorem substep_failure_reports_and_exits_witness :
    create_app cfgW (pureRemote fFailW) "jupyter-alice" effW =
      (Outcome.exit 1,
       { effW with calls := effW.calls ++ [createAppCall cfgW "jupyter-alice"],
                   out := effW.out ++
                     [Msg.failedCreateApp (some (ErrPayload.textErr "boom"))] }) ∧
    provision_jupyter cfgW (pureRemote fFailW) "alice" "jupyter-alice" [] effW =
      (Outcome.exit 1,
       { effW with
         calls := effW.calls ++ [appGetCall "jupyter-alice", createAppCall cfgW "jupyter-alice"],
         out := effW.out ++ [Msg.creatingNew "alice",
                             Msg.failedCreateApp (some (ErrPayload.textErr "boom"))] }) := by
  constructor
  · have h := substep_failure_reports_and_exits.1 Unit cfgW (pureRemote fFailW)
      "jupyter-alice" effW (by decide)
      (HttpOutcome.httpError 422 (RespBody.textBody "boom")) () rfl (by decide)
    simpa using h
  · have h := substep_failure_reports_and_exits.2.2 Unit cfgW (pureRemote fFailW)
      "alice" "jupyter-alice" [] effW (by decide)
      (HttpOutcome.httpError 404 (RespBody.textBody "nf")) ()
      (HttpOutcome.httpError 422 (RespBody.textBody "boom")) () rfl (by decide) rfl
      (by decide)
    simpa using h

/-- A remote on which the DELETE fails with a 500 and a plain-text body. -/
def f500W : ApiCall → HttpOutcome := fun _ =>
  HttpOutcome.httpError 500 (RespBody.textBody "ise")

/-- Claim C10: after a confirmed deletion whose DELETE response status is
outside {200, 204}, `delete_jupyter` prints the failure report and then
unconditionally prints the "successfully deleted" message as well, and
still returns normally. -/
theorem delete_reports_success_after_failure (σ : Type) (cfg : Config) (R : Remote σ)
    (sid app answer : String) (e : Eff σ)
    (htok : cfg.flyApiToken ≠ "") (hans : pyLower answer = "y")
    (o : HttpOutcome) (s' : σ)
    (h : R.handle e.rs (deleteAppCall app) = (o, s'))
    (hfail : ¬(respStatus o = 200 ∨ respStatus o = 204)) :
    delete_jupyter cfg R sid app answer e =
      (Outcome.ok (),
       { e with rs := s', calls := e.calls ++ [deleteAppCall app],
                out := e.out ++ [Msg.failedDelete sid (respResult o).errField,
                                 Msg.deletedInstance sid] }) := by
  unfold delete_jupyter
  rw [if_neg (by simp [hans])]
  rw [make_api_request_eq cfg R _ _ _ _ htok]
  simp only [deleteAppCall] at h
  rw [h]
  dsimp only
  simp only [bindO]
  rw [if_neg (by simpa [respStatus] using hfail)]
  simp [deleteAppCall, List.append_assoc]

/-- Witness for claim C10 with answer `"Y"` and a DELETE failing with
500. -/
theorem delete_reports_success_after_failure_witness :
    delete_jupyter cfgW (pureRemote f500W) "alice" "jupyter-alice" "Y" effW =
      (Outcome.ok (),
       { effW with calls := effW.calls ++ [deleteAppCall "jupyter-alice"],
                   out := effW.out ++
                     [Msg.failedDelete "alice" (some (ErrPayload.textErr "ise")),
                      Msg.deletedInstance "alice"] }) := by
  have h := delete_reports_success_after_failure Unit cfgW (pureRemote f500W)
    "alice" "jupyter-alice" "Y" effW (by decide) (by decide)
    (HttpOutcome.httpError 500 (RespBody.textBody "ise")) () rfl (by decide)
  simpa using h

end Manage
